import Mathlib

/-!
Verification of the liveness / anti-spoofing evaluator of the
face-recognition attendance system (`static/js/liveness.js`).

The `LivenessDetector` class is embedded shallowly:

* JS numbers are modelled as exact rationals `ℚ`; every arithmetic
  operation the detector performs (addition, subtraction, multiplication,
  division, `Math.abs`, `Math.min`, `Math.max`) is exact on the rationals.
* `Math.sqrt` is the one transcendental primitive; it is embedded as an
  abstract function `sqrt : ℚ → ℚ` passed to every definition that needs
  it.  All state-machine theorems below hold for **every** choice of
  `sqrt`, which shows they do not depend on its values; the concrete
  witnesses instantiate it with a table function `sqrtW` that agrees
  with the mathematical square root on every argument it receives.
* `Math.random()` (drawn inside `calculateExpressionVariation`) and
  `Date.now()` (stored in the motion history) are side-effecting oracles;
  they are modelled as explicit per-frame inputs `rand : ℚ` and `now : ℤ`
  carried by `FrameInput.ok`.
* The mutable `this` object is the explicit state `State`; each method of
  the class becomes a function `… → State → State`.  The field
  `this.faceLandmarks` is written at the start of every single-face frame
  and only read later in that same frame, never across frames, so the
  current detection is passed as an argument instead of being stored.
  The constructor field `this.headMovement = {x,y,z}` is never written or
  read after construction and is omitted.
* A frame in which the (external, asynchronous) face-detector call throws
  is modelled by the input `FrameInput.err`: the `try`/`catch` in
  `detectLiveness` maps it to the literal error object of the source.
  The JS error object carries only 9 of the 13 snapshot fields that
  `getLivenessData()` produces; the four fields it omits are modelled as
  `Option` fields that are `none` there.  The guard that returns a
  `pending` object when the video element or the library is missing is
  DOM plumbing outside the core and is not modelled.
-/

namespace Liveness

/-- A 2-D landmark point (JS `{x, y}` with float coordinates, modelled in ℚ). -/
structure Point where
  x : ℚ
  y : ℚ
deriving DecidableEq, Inhabited, Repr

/-- One face detection as consumed by the core: the landmark groups the
detector object exposes via `getLeftEye`, `getRightEye`, `getMouth`,
`getNose`.  The expression probabilities returned by
`withFaceExpressions()` are never read by the core and are omitted. -/
structure Detection where
  leftEye : List Point
  rightEye : List Point
  mouth : List Point
  nose : List Point
deriving DecidableEq, Inhabited, Repr

/-- An entry of `this.frameHistory`: `{x, y, timestamp: Date.now()}`. -/
structure HistEntry where
  x : ℚ
  y : ℚ
  timestamp : ℤ
deriving DecidableEq, Inhabited, Repr

/-- The status strings the detector produces (`this.livenessStatus` plus the
`'error'` status that only ever appears in the returned snapshot). -/
inductive Status where
  | pending
  | no_face
  | multiple_faces
  | active
  | photo_detected
  | screen_detected
  | need_blinks
  | need_movement
  | suspicious
  | inactive
  | error
deriving DecidableEq, Inhabited, Repr

/-- The mutable state of a `LivenessDetector` instance (the fields of
`this` that are ever read or written after construction). -/
structure State where
  eyeAspectRatio : ℚ
  blinkCount : ℕ
  livenessStatus : Status
  eyeClosedFrames : ℕ
  eyeOpenFrames : ℕ
  blinkDetected : Bool
  headMovementDetected : Bool
  mouthOpenFrames : ℕ
  mouthClosedFrames : ℕ
  mouthOpenDetected : Bool
  antiSpoofingScore : ℚ
  livenessScore : ℚ
  isLivenessActive : Bool
  frameHistory : List HistEntry
  photoSpoofingDetected : Bool
  screenSpoofingDetected : Bool
  realPersonScore : ℚ
deriving DecidableEq, Inhabited, Repr

/-- The snapshot object returned by one `detectLiveness` call.  The last
four fields are present in the `getLivenessData()` object but absent from
the literal error/guard objects of the source; absence is `none`. -/
structure Snapshot where
  status : Status
  eyeBlinkCount : ℕ
  mouthMovements : ℕ
  headMovementDetected : Bool
  antiSpoofingScore : ℚ
  livenessScore : ℚ
  isActive : Bool
  spoofingDetected : Bool
  realPersonScore : ℚ
  blinkDetected : Option Bool
  mouthOpenDetected : Option Bool
  photoSpoofingDetected : Option Bool
  screenSpoofingDetected : Option Bool
deriving DecidableEq, Inhabited, Repr

/-- Input of one `detectLiveness` invocation.  `err` models a frame on
which the external detector call (the only suspension point) throws;
`ok dets rand now` models a successful detector call returning `dets`,
with `rand` the value `Math.random()` would draw this frame and `now`
the value of `Date.now()`. -/
inductive FrameInput where
  | err
  | ok (dets : List Detection) (rand : ℚ) (now : ℤ)
deriving DecidableEq, Inhabited, Repr

/-! ## Constants (constructor of `LivenessDetector`) -/

def EYE_AR_THRESHOLD : ℚ := 1/4
def EYE_AR_CONSEC_FRAMES : ℕ := 3
def MOUTH_AR_THRESHOLD : ℚ := 7/20
def MOUTH_AR_CONSEC_FRAMES : ℕ := 5
def MIN_BLINKS_REQUIRED : ℕ := 2
def MIN_LIVENESS_SCORE : ℚ := 80
def ANTI_SPOOFING_THRESHOLD : ℚ := 70
def HEAD_MOVEMENT_THRESHOLD : ℚ := 5
def PHOTO_SPOOFING_THRESHOLD : ℚ := 1/10
def maxHistorySize : ℕ := 10

/-- Creation-time state (the constructor). -/
def initState : State where
  eyeAspectRatio := 0
  blinkCount := 0
  livenessStatus := Status.pending
  eyeClosedFrames := 0
  eyeOpenFrames := 0
  blinkDetected := false
  headMovementDetected := false
  mouthOpenFrames := 0
  mouthClosedFrames := 0
  mouthOpenDetected := false
  antiSpoofingScore := 0
  livenessScore := 0
  isLivenessActive := false
  frameHistory := []
  photoSpoofingDetected := false
  screenSpoofingDetected := false
  realPersonScore := 0

/-! ## Geometric ratio calculator -/

/-- JS array indexing `pts[i]` (the landmark contracts guarantee the
index is in range; out-of-range access is totalised with the origin). -/
def getP (pts : List Point) (i : ℕ) : Point := pts.getD i ⟨0, 0⟩

/-- `distance(point1, point2)`:
`Math.sqrt(Math.pow(p2.x-p1.x,2) + Math.pow(p2.y-p1.y,2))`. -/
def distance (sqrt : ℚ → ℚ) (point1 point2 : Point) : ℚ :=
  sqrt ((point2.x - point1.x) ^ 2 + (point2.y - point1.y) ^ 2)

/-- `getEAR(eyePoints)`: `(A + B) / (2.0 * C)` with `A = d(p1,p5)`,
`B = d(p2,p4)`, `C = d(p0,p3)`. -/
def getEAR (sqrt : ℚ → ℚ) (eyePoints : List Point) : ℚ :=
  let A := distance sqrt (getP eyePoints 1) (getP eyePoints 5)
  let B := distance sqrt (getP eyePoints 2) (getP eyePoints 4)
  let C := distance sqrt (getP eyePoints 0) (getP eyePoints 3)
  (A + B) / (2 * C)

/-- The per-frame eye aspect ratio `(leftEAR + rightEAR) / 2` computed by
`calculateEyeAspectRatio`. -/
def frameEAR (sqrt : ℚ → ℚ) (lm : Detection) : ℚ :=
  (getEAR sqrt lm.leftEye + getEAR sqrt lm.rightEye) / 2

/-- The mouth aspect ratio `(A + B + C) / (3 * D)` computed by
`calculateMouthAspectRatio` (vertical pairs 13-19, 14-18, 15-17;
horizontal pair 12-16). -/
def frameMAR (sqrt : ℚ → ℚ) (lm : Detection) : ℚ :=
  let A := distance sqrt (getP lm.mouth 13) (getP lm.mouth 19)
  let B := distance sqrt (getP lm.mouth 14) (getP lm.mouth 18)
  let C := distance sqrt (getP lm.mouth 15) (getP lm.mouth 17)
  let D := distance sqrt (getP lm.mouth 12) (getP lm.mouth 16)
  (A + B + C) / (3 * D)

/-- `calculateEyeAspectRatio()`: stores the mean EAR and updates the
consecutive closed/open frame counters. -/
def calculateEyeAspectRatio (sqrt : ℚ → ℚ) (lm : Detection) (st : State) : State :=
  let ear := frameEAR sqrt lm
  let st1 := { st with eyeAspectRatio := ear }
  if ear < EYE_AR_THRESHOLD then
    { st1 with eyeClosedFrames := st1.eyeClosedFrames + 1, eyeOpenFrames := 0 }
  else
    { st1 with eyeClosedFrames := 0, eyeOpenFrames := st1.eyeOpenFrames + 1 }

/-- `calculateMouthAspectRatio()`: updates the mouth open/closed frame
counters. -/
def calculateMouthAspectRatio (sqrt : ℚ → ℚ) (lm : Detection) (st : State) : State :=
  let mouthAR := frameMAR sqrt lm
  if mouthAR > MOUTH_AR_THRESHOLD then
    { st with mouthOpenFrames := st.mouthOpenFrames + 1, mouthClosedFrames := 0 }
  else
    { st with mouthOpenFrames := 0, mouthClosedFrames := st.mouthClosedFrames + 1 }

/-! ## Temporal gesture detectors -/

/-- `detectBlinks()`. -/
def detectBlinks (st : State) : State :=
  let st1 :=
    if EYE_AR_CONSEC_FRAMES ≤ st.eyeClosedFrames ∧ st.blinkDetected = false then
      { st with blinkCount := st.blinkCount + 1, blinkDetected := true }
    else st
  if EYE_AR_CONSEC_FRAMES ≤ st1.eyeOpenFrames then
    { st1 with blinkDetected := false }
  else st1

/-- `detectMouthMovements()`. -/
def detectMouthMovements (st : State) : State :=
  let st1 :=
    if MOUTH_AR_CONSEC_FRAMES ≤ st.mouthOpenFrames ∧ st.mouthOpenDetected = false then
      { st with mouthOpenDetected := true }
    else st
  if MOUTH_AR_CONSEC_FRAMES ≤ st1.mouthClosedFrames then
    { st1 with mouthOpenDetected := false }
  else st1

/-! ## Motion history tracker -/

/-- The per-pair quantities `movementX + movementY` accumulated into
`totalMovement` by the loop of `detectHeadMovement` (the loop walks the
consecutive pairs of the updated history). -/
def pairSums (hist : List HistEntry) : List ℚ :=
  (hist.zip hist.tail).map fun pc => |pc.2.x - pc.1.x| + |pc.2.y - pc.1.y|

/-- Whether some consecutive pair moves more than
`HEAD_MOVEMENT_THRESHOLD` in x or in y (the loop branch that latches
`headMovementDetected`). -/
def anyBigMove (hist : List HistEntry) : Bool :=
  (hist.zip hist.tail).any fun pc =>
    decide (HEAD_MOVEMENT_THRESHOLD < |pc.2.x - pc.1.x|) ||
    decide (HEAD_MOVEMENT_THRESHOLD < |pc.2.y - pc.1.y|)

/-- `detectHeadMovement()`: pushes the first nose point into the history,
evicts the oldest entry past capacity, latches `headMovementDetected`
on any large single-step displacement, and raises the photo-spoof flag
on very low average movement once 5 entries exist. -/
def detectHeadMovement (lm : Detection) (now : ℤ) (st : State) : State :=
  match lm.nose with
  | [] => st
  | nosePoint :: _ =>
    let hist0 := st.frameHistory ++ [{ x := nosePoint.x, y := nosePoint.y, timestamp := now }]
    let hist := if maxHistorySize < hist0.length then hist0.tail else hist0
    let st1 := { st with frameHistory := hist }
    if 3 ≤ hist.length then
      let st2 := { st1 with headMovementDetected := st1.headMovementDetected || anyBigMove hist }
      let avgMovement := (pairSums hist).sum / ((pairSums hist).length : ℚ)
      if avgMovement < PHOTO_SPOOFING_THRESHOLD ∧ 5 ≤ hist.length then
        { st2 with photoSpoofingDetected := true }
      else st2
    else st1

/-- The movement-analysis part of `detectHeadMovement` after the history
update (the `length >= 3` guard, the displacement loop, and the
photo-spoof check), factored out so the proofs can treat the truncated
and untruncated history uniformly; `dHM_cons_eq` below proves that
`detectHeadMovement` is exactly this applied to the updated history. -/
def dHM_core (hist : List HistEntry) (s : State) : State :=
  let st1 := { s with frameHistory := hist }
  if 3 ≤ hist.length then
    let st2 := { st1 with headMovementDetected := st1.headMovementDetected || anyBigMove hist }
    let avgMovement := (pairSums hist).sum / ((pairSums hist).length : ℚ)
    if avgMovement < PHOTO_SPOOFING_THRESHOLD ∧ 5 ≤ hist.length then
      { st2 with photoSpoofingDetected := true }
    else st2
  else st1

/-! ## Spoofing heuristics -/

/-- `calculateExpressionVariation()`: `Math.random() * 0.5 + 0.5`; `rand`
is the random draw.  The caller never uses the result. -/
def calculateExpressionVariation (rand : ℚ) : ℚ :=
  rand * (1/2) + 1/2

/-- `calculateMovementVariation()`: mean Euclidean distance between
consecutive history entries (0 with fewer than 2 entries). -/
def calculateMovementVariation (sqrt : ℚ → ℚ) (st : State) : ℚ :=
  if st.frameHistory.length < 2 then 0
  else
    let dists := (st.frameHistory.zip st.frameHistory.tail).map fun pc =>
      sqrt ((pc.2.x - pc.1.x) ^ 2 + (pc.2.y - pc.1.y) ^ 2)
    if 0 < dists.length then dists.sum / (dists.length : ℚ) else 0

/-- `detectSpoofing()`: computes the (unused) expression variation and
raises the screen-spoof flag on extremely low movement variation once 8
history entries exist. -/
def detectSpoofing (sqrt : ℚ → ℚ) (rand : ℚ) (st : State) : State :=
  let expressionVariation := calculateExpressionVariation rand
  if 8 ≤ st.frameHistory.length then
    if calculateMovementVariation sqrt st < 1/20 then
      { st with screenSpoofingDetected := true }
    else st
  else st

/-! ## Score aggregator and status resolver -/

/-- `calculateAntiSpoofingScore()`. -/
def calculateAntiSpoofingScore (sqrt : ℚ → ℚ) (st : State) : State :=
  let score : ℚ := 100
  let score := if st.photoSpoofingDetected then score - 50 else score
  let score := if st.screenSpoofingDetected then score - 50 else score
  let movementVariation := calculateMovementVariation sqrt st
  let score := if movementVariation < 1/10 then score - 30 else score
  let score := if movementVariation < 1/20 then score - 20 else score
  { st with antiSpoofingScore := max 0 (min 100 score) }

/-- `calculateRealPersonScore()`. -/
def calculateRealPersonScore (st : State) : ℚ :=
  let score : ℚ := 0
  let score := if 2 ≤ st.blinkCount then score + 40 else score
  let score := if 3 ≤ st.blinkCount then score + 10 else score
  let score := if st.headMovementDetected then score + 30 else score
  let score := if st.mouthOpenDetected then score + 20 else score
  let score := score + st.antiSpoofingScore * (1/10)
  min 100 score

/-- `getDetailedStatus()`: the priority cascade used when the final
verdict is false. -/
def getDetailedStatus (st : State) : Status :=
  if st.photoSpoofingDetected then Status.photo_detected
  else if st.screenSpoofingDetected then Status.screen_detected
  else if st.blinkCount < MIN_BLINKS_REQUIRED then Status.need_blinks
  else if st.headMovementDetected = false then Status.need_movement
  else if st.antiSpoofingScore < ANTI_SPOOFING_THRESHOLD then Status.suspicious
  else Status.inactive

/-- `calculateLivenessScore()`: computes the liveness score, the real
person score, the final verdict `isLivenessActive`, and the status. -/
def calculateLivenessScore (st : State) : State :=
  let blinkScore : ℚ := min ((st.blinkCount : ℚ) * 20) 40
  let score := blinkScore
  let score := if st.mouthOpenDetected then score + 20 else score
  let score := if st.headMovementDetected then score + 20 else score
  let antiSpoofingPoints := st.antiSpoofingScore * (1/5)
  let score := score + antiSpoofingPoints
  let st1 := { st with livenessScore := min 100 (max 0 score) }
  let st2 := { st1 with realPersonScore := calculateRealPersonScore st1 }
  let isActive : Bool :=
    decide (MIN_LIVENESS_SCORE ≤ st2.livenessScore) &&
    decide (MIN_BLINKS_REQUIRED ≤ st2.blinkCount) &&
    st2.headMovementDetected &&
    decide (ANTI_SPOOFING_THRESHOLD ≤ st2.antiSpoofingScore) &&
    !st2.photoSpoofingDetected &&
    !st2.screenSpoofingDetected
  let st3 := { st2 with isLivenessActive := isActive }
  { st3 with livenessStatus := if isActive then Status.active else getDetailedStatus st3 }

/-! ## Facade -/

/-- `getLivenessData()`. -/
def getLivenessData (st : State) : Snapshot where
  status := st.livenessStatus
  eyeBlinkCount := st.blinkCount
  mouthMovements := if st.mouthOpenDetected then 1 else 0
  headMovementDetected := st.headMovementDetected
  antiSpoofingScore := st.antiSpoofingScore
  livenessScore := st.livenessScore
  isActive := st.isLivenessActive
  spoofingDetected := st.photoSpoofingDetected || st.screenSpoofingDetected
  realPersonScore := st.realPersonScore
  blinkDetected := some st.blinkDetected
  mouthOpenDetected := some st.mouthOpenDetected
  photoSpoofingDetected := some st.photoSpoofingDetected
  screenSpoofingDetected := some st.screenSpoofingDetected

/-- The literal object returned by the `catch` branch of
`detectLiveness` (9 fields; the four latch/flag fields of
`getLivenessData` are absent). -/
def errorSnapshot : Snapshot where
  status := Status.error
  eyeBlinkCount := 0
  mouthMovements := 0
  headMovementDetected := false
  antiSpoofingScore := 0
  livenessScore := 0
  isActive := false
  spoofingDetected := true
  realPersonScore := 0
  blinkDetected := none
  mouthOpenDetected := none
  photoSpoofingDetected := none
  screenSpoofingDetected := none

/-- `detectLiveness(videoElement)`: the per-frame pipeline.  A throwing
detector call (`FrameInput.err`) is caught and mapped to the error
snapshot with the state untouched; otherwise the zero/multiple face
early returns or the full single-face pipeline run. -/
def detectLiveness (sqrt : ℚ → ℚ) (input : FrameInput) (st : State) : State × Snapshot :=
  match input with
  | FrameInput.err => (st, errorSnapshot)
  | FrameInput.ok dets rand now =>
    if dets.length = 0 then
      let st1 := { st with livenessStatus := Status.no_face }
      (st1, getLivenessData st1)
    else if 1 < dets.length then
      let st1 := { st with livenessStatus := Status.multiple_faces }
      (st1, getLivenessData st1)
    else
      let detection := dets.headD default
      let st1 := calculateEyeAspectRatio sqrt detection st
      let st2 := calculateMouthAspectRatio sqrt detection st1
      let st3 := detectBlinks st2
      let st4 := detectMouthMovements st3
      let st5 := detectHeadMovement detection now st4
      let st6 := detectSpoofing sqrt rand st5
      let st7 := calculateAntiSpoofingScore sqrt st6
      let st8 := calculateLivenessScore st7
      (st8, getLivenessData st8)

/-- `reset()`.  Every field written by the constructor is written back to
its creation-time value except the scratch field `eyeAspectRatio`, which
the source's `reset` does not touch (it is overwritten before any read
on the next processed frame). -/
def reset (st : State) : State :=
  { st with
    blinkCount := 0
    livenessScore := 0
    isLivenessActive := false
    blinkDetected := false
    mouthOpenDetected := false
    headMovementDetected := false
    photoSpoofingDetected := false
    screenSpoofingDetected := false
    eyeClosedFrames := 0
    eyeOpenFrames := 0
    mouthOpenFrames := 0
    mouthClosedFrames := 0
    antiSpoofingScore := 0
    realPersonScore := 0
    livenessStatus := Status.pending
    frameHistory := [] }

/-- State reached after a sequence of `detectLiveness` calls. -/
def processSeq (sqrt : ℚ → ℚ) (inputs : List FrameInput) (st : State) : State :=
  inputs.foldl (fun s i => (detectLiveness sqrt i s).1) st

/-- The list of snapshots returned along a sequence of `detectLiveness`
calls. -/
def runSnapshots (sqrt : ℚ → ℚ) (inputs : List FrameInput) (st : State) : List Snapshot :=
  match inputs with
  | [] => []
  | i :: rest =>
    let r := detectLiveness sqrt i st
    r.2 :: runSnapshots sqrt rest r.1

/-! ## Spec-side definitions

These definitions are written from the words of the specification (not
from the source); the theorems below compare them with the definitions
translated from the source. -/

/-- Modelled from the spec: the literal reading of "vertical distances
between points (1,5) and (2,4) **averaged, divided by twice** the
horizontal distance between points (0,3)", i.e. `((A+B)/2) / (2*C)`. -/
def earSpecFormula (sqrt : ℚ → ℚ) (eyePoints : List Point) : ℚ :=
  ((distance sqrt (getP eyePoints 1) (getP eyePoints 5) +
    distance sqrt (getP eyePoints 2) (getP eyePoints 4)) / 2) /
  (2 * distance sqrt (getP eyePoints 0) (getP eyePoints 3))

/-- Modelled from the spec (amended reading): the vertical distances
averaged, divided by the horizontal distance — equivalently the sum of
the vertical distances divided by twice the horizontal distance, which
is what the source computes. -/
def earSpecAmended (sqrt : ℚ → ℚ) (eyePoints : List Point) : ℚ :=
  ((distance sqrt (getP eyePoints 1) (getP eyePoints 5) +
    distance sqrt (getP eyePoints 2) (getP eyePoints 4)) / 2) /
  distance sqrt (getP eyePoints 0) (getP eyePoints 3)

/-- Modelled from the spec: the status-resolution priority cascade of
§4.6 of the spec, first match wins, evaluated on the post-frame state. -/
def statusSpec (numFaces : ℕ) (st : State) : Status :=
  if numFaces = 0 then Status.no_face
  else if 1 < numFaces then Status.multiple_faces
  else if st.isLivenessActive then Status.active
  else if st.photoSpoofingDetected then Status.photo_detected
  else if st.screenSpoofingDetected then Status.screen_detected
  else if st.blinkCount < 2 then Status.need_blinks
  else if st.headMovementDetected = false then Status.need_movement
  else if st.antiSpoofingScore < 70 then Status.suspicious
  else Status.inactive

/-- The history entry a frame appends to the motion history: present
exactly when the frame is a successful single-face detection whose nose
landmark list is nonempty. -/
def frameEntry : FrameInput → Option HistEntry
  | FrameInput.err => none
  | FrameInput.ok dets _ now =>
    if dets.length = 0 then none
    else if 1 < dets.length then none
    else
      match (dets.headD default).nose with
      | [] => none
      | q :: _ => some { x := q.x, y := q.y, timestamp := now }

/-- All entries appended along a sequence of frames, in arrival order. -/
def entriesOf (l : List FrameInput) : List HistEntry :=
  l.filterMap frameEntry

/-- The last `n` elements of a list (all of it when it is shorter). -/
def lastN (n : ℕ) (l : List α) : List α :=
  l.drop (l.length - n)

/-- Erase the wall-clock timestamp of a history entry. -/
def eraseTS (e : HistEntry) : HistEntry :=
  { e with timestamp := 0 }

/-- Erase every timestamp stored in the session state.  Two states with
the same erasure agree on everything except the `Date.now()` values
recorded in the motion history. -/
def eraseState (st : State) : State :=
  { st with frameHistory := st.frameHistory.map eraseTS }

/-- Whether two frame sequences carry the same detector output (the same
landmark detections, with possibly different `Math.random()` draws and
`Date.now()` readings). -/
def sameDets : List FrameInput → List FrameInput → Bool
  | [], [] => true
  | FrameInput.err :: l1, FrameInput.err :: l2 => sameDets l1 l2
  | FrameInput.ok d1 _ _ :: l1, FrameInput.ok d2 _ _ :: l2 =>
    decide (d1 = d2) && sameDets l1 l2
  | _, _ => false

/-- A successful single-face frame whose mean eye aspect ratio is below
the closed-eye threshold. -/
def isBelowFrame (sqrt : ℚ → ℚ) : FrameInput → Bool
  | FrameInput.ok [d] _ _ => decide (frameEAR sqrt d < EYE_AR_THRESHOLD)
  | _ => false

/-- A successful single-face frame whose mean eye aspect ratio is at or
above the closed-eye threshold. -/
def isAboveFrame (sqrt : ℚ → ℚ) : FrameInput → Bool
  | FrameInput.ok [d] _ _ => decide (EYE_AR_THRESHOLD ≤ frameEAR sqrt d)
  | _ => false

/-! ## Concrete fixtures used by the witness theorems

`sqrtW` is one concrete instantiation of the abstract `Math.sqrt`
parameter; it agrees with the mathematical square root on every argument
it is ever applied to in the witnesses (0, 1, 9 and 16). -/

def sqrtW (q : ℚ) : ℚ :=
  if q = 1 then 1 else if q = 9 then 3 else if q = 16 then 4 else 0

/-- A 6-point eye contour with open eyes: vertical distances 3 and 3,
horizontal distance 4, so the EAR is `6/8 = 3/4 ≥ 1/4` under `sqrtW`. -/
def eyeOpenPts : List Point :=
  [⟨0, 0⟩, ⟨1, 0⟩, ⟨2, 0⟩, ⟨4, 0⟩, ⟨2, 3⟩, ⟨1, 3⟩]

/-- A 6-point eye contour with closed eyes: vertical distances 0 and 0,
so the EAR is `0 < 1/4` under `sqrtW`. -/
def eyeClosedPts : List Point :=
  [⟨0, 0⟩, ⟨1, 0⟩, ⟨2, 0⟩, ⟨4, 0⟩, ⟨2, 0⟩, ⟨1, 0⟩]

/-- A 6-point eye contour whose three pairwise distances are all 1
(vertical squared distances 1 and 1, horizontal squared distance 1). -/
def eyeUnitPts : List Point :=
  [⟨0, 0⟩, ⟨0, 0⟩, ⟨0, 0⟩, ⟨1, 0⟩, ⟨0, 1⟩, ⟨0, 1⟩]

/-- Open-eyed detection without nose landmarks (skips the motion
tracker). -/
def detOpen : Detection :=
  { leftEye := eyeOpenPts, rightEye := eyeOpenPts, mouth := [], nose := [] }

/-- Closed-eyed detection without nose landmarks. -/
def detClosed : Detection :=
  { leftEye := eyeClosedPts, rightEye := eyeClosedPts, mouth := [], nose := [] }

/-- Open-eyed detection whose nose reference point is `p`. -/
def detNose (p : Point) : Detection :=
  { leftEye := eyeOpenPts, rightEye := eyeOpenPts, mouth := [], nose := [p] }

/-- A session state about to pass every liveness gate: two blinks and a
mouth-open event recorded, head movement latched, and a motion history
whose variation under `sqrtW` is 3 (so no anti-spoofing deduction). -/
def stGood : State :=
  { initState with
    blinkCount := 2
    headMovementDetected := true
    mouthOpenDetected := true
    frameHistory := [⟨0, 0, 0⟩, ⟨3, 0, 0⟩] }

/-- A session state whose motion history already holds four samples of a
perfectly still head position. -/
def stStill : State :=
  { initState with frameHistory := [⟨0, 0, 0⟩, ⟨0, 0, 0⟩, ⟨0, 0, 0⟩, ⟨0, 0, 0⟩] }

/-- Eleven successive single-face frames whose nose points have pairwise
distinct x coordinates 0, 1, ..., 10. -/
def elevenFrames : List FrameInput :=
  [FrameInput.ok [detNose ⟨0, 0⟩] 0 0, FrameInput.ok [detNose ⟨1, 0⟩] 0 0,
   FrameInput.ok [detNose ⟨2, 0⟩] 0 0, FrameInput.ok [detNose ⟨3, 0⟩] 0 0,
   FrameInput.ok [detNose ⟨4, 0⟩] 0 0, FrameInput.ok [detNose ⟨5, 0⟩] 0 0,
   FrameInput.ok [detNose ⟨6, 0⟩] 0 0, FrameInput.ok [detNose ⟨7, 0⟩] 0 0,
   FrameInput.ok [detNose ⟨8, 0⟩] 0 0, FrameInput.ok [detNose ⟨9, 0⟩] 0 0,
   FrameInput.ok [detNose ⟨10, 0⟩] 0 0]

/-! ## Bookkeeping lemmas for the per-frame pipeline -/

theorem processSeq_nil (sqrt : ℚ → ℚ) (st : State) : processSeq sqrt [] st = st := rfl

theorem processSeq_cons (sqrt : ℚ → ℚ) (f : FrameInput) (l : List FrameInput) (st : State) :
    processSeq sqrt (f :: l) st = processSeq sqrt l (detectLiveness sqrt f st).1 := rfl

theorem processSeq_append (sqrt : ℚ → ℚ) (l1 l2 : List FrameInput) (st : State) :
    processSeq sqrt (l1 ++ l2) st = processSeq sqrt l2 (processSeq sqrt l1 st) := by
  simp [processSeq]

theorem detectLiveness_err_eq (sqrt : ℚ → ℚ) (st : State) :
    detectLiveness sqrt FrameInput.err st = (st, errorSnapshot) := rfl

theorem detectLiveness_zero_eq (sqrt : ℚ → ℚ) (r : ℚ) (t : ℤ) (st : State) :
    detectLiveness sqrt (FrameInput.ok [] r t) st =
      ({ st with livenessStatus := Status.no_face },
       getLivenessData { st with livenessStatus := Status.no_face }) := rfl

theorem detectLiveness_multi_eq (sqrt : ℚ → ℚ) (dets : List Detection) (r : ℚ) (t : ℤ)
    (st : State) (h : 2 ≤ dets.length) :
    detectLiveness sqrt (FrameInput.ok dets r t) st =
      ({ st with livenessStatus := Status.multiple_faces },
       getLivenessData { st with livenessStatus := Status.multiple_faces }) := by
  have h0 : ¬ dets.length = 0 := by omega
  have h1 : 1 < dets.length := by omega
  simp [detectLiveness, h0, h1]

theorem detectLiveness_single_eq (sqrt : ℚ → ℚ) (d : Detection) (r : ℚ) (t : ℤ) (st : State) :
    detectLiveness sqrt (FrameInput.ok [d] r t) st =
      (calculateLivenessScore (calculateAntiSpoofingScore sqrt (detectSpoofing sqrt r
         (detectHeadMovement d t (detectMouthMovements (detectBlinks
           (calculateMouthAspectRatio sqrt d (calculateEyeAspectRatio sqrt d st))))))),
       getLivenessData (calculateLivenessScore (calculateAntiSpoofingScore sqrt
         (detectSpoofing sqrt r (detectHeadMovement d t (detectMouthMovements (detectBlinks
           (calculateMouthAspectRatio sqrt d (calculateEyeAspectRatio sqrt d st))))))))) := rfl

/-! Field preservation of the pipeline stages. -/

@[simp] theorem cEAR_blinkCount (sqrt : ℚ → ℚ) (d : Detection) (st : State) :
    (calculateEyeAspectRatio sqrt d st).blinkCount = st.blinkCount := by
  simp only [calculateEyeAspectRatio]; split <;> rfl

@[simp] theorem cEAR_blinkDetected (sqrt : ℚ → ℚ) (d : Detection) (st : State) :
    (calculateEyeAspectRatio sqrt d st).blinkDetected = st.blinkDetected := by
  simp only [calculateEyeAspectRatio]; split <;> rfl

@[simp] theorem cEAR_photo (sqrt : ℚ → ℚ) (d : Detection) (st : State) :
    (calculateEyeAspectRatio sqrt d st).photoSpoofingDetected = st.photoSpoofingDetected := by
  simp only [calculateEyeAspectRatio]; split <;> rfl

@[simp] theorem cEAR_screen (sqrt : ℚ → ℚ) (d : Detection) (st : State) :
    (calculateEyeAspectRatio sqrt d st).screenSpoofingDetected = st.screenSpoofingDetected := by
  simp only [calculateEyeAspectRatio]; split <;> rfl

@[simp] theorem cEAR_history (sqrt : ℚ → ℚ) (d : Detection) (st : State) :
    (calculateEyeAspectRatio sqrt d st).frameHistory = st.frameHistory := by
  simp only [calculateEyeAspectRatio]; split <;> rfl

theorem cEAR_closed (sqrt : ℚ → ℚ) (d : Detection) (st : State) :
    (calculateEyeAspectRatio sqrt d st).eyeClosedFrames =
      if frameEAR sqrt d < EYE_AR_THRESHOLD then st.eyeClosedFrames + 1 else 0 := by
  simp only [calculateEyeAspectRatio]; split <;> rfl

theorem cEAR_open (sqrt : ℚ → ℚ) (d : Detection) (st : State) :
    (calculateEyeAspectRatio sqrt d st).eyeOpenFrames =
      if frameEAR sqrt d < EYE_AR_THRESHOLD then 0 else st.eyeOpenFrames + 1 := by
  simp only [calculateEyeAspectRatio]; split <;> rfl

@[simp] theorem cMAR_blinkCount (sqrt : ℚ → ℚ) (d : Detection) (st : State) :
    (calculateMouthAspectRatio sqrt d st).blinkCount = st.blinkCount := by
  simp only [calculateMouthAspectRatio]; split <;> rfl

@[simp] theorem cMAR_blinkDetected (sqrt : ℚ → ℚ) (d : Detection) (st : State) :
    (calculateMouthAspectRatio sqrt d st).blinkDetected = st.blinkDetected := by
  simp only [calculateMouthAspectRatio]; split <;> rfl

@[simp] theorem cMAR_closed (sqrt : ℚ → ℚ) (d : Detection) (st : State) :
    (calculateMouthAspectRatio sqrt d st).eyeClosedFrames = st.eyeClosedFrames := by
  simp only [calculateMouthAspectRatio]; split <;> rfl

@[simp] theorem cMAR_open (sqrt : ℚ → ℚ) (d : Detection) (st : State) :
    (calculateMouthAspectRatio sqrt d st).eyeOpenFrames = st.eyeOpenFrames := by
  simp only [calculateMouthAspectRatio]; split <;> rfl

@[simp] theorem cMAR_photo (sqrt : ℚ → ℚ) (d : Detection) (st : State) :
    (calculateMouthAspectRatio sqrt d st).photoSpoofingDetected = st.photoSpoofingDetected := by
  simp only [calculateMouthAspectRatio]; split <;> rfl

@[simp] theorem cMAR_screen (sqrt : ℚ → ℚ) (d : Detection) (st : State) :
    (calculateMouthAspectRatio sqrt d st).screenSpoofingDetected = st.screenSpoofingDetected := by
  simp only [calculateMouthAspectRatio]; split <;> rfl

@[simp] theorem cMAR_history (sqrt : ℚ → ℚ) (d : Detection) (st : State) :
    (calculateMouthAspectRatio sqrt d st).frameHistory = st.frameHistory := by
  simp only [calculateMouthAspectRatio]; split <;> rfl

@[simp] theorem dBlinks_closed (st : State) :
    (detectBlinks st).eyeClosedFrames = st.eyeClosedFrames := by
  simp only [detectBlinks]; split <;> split <;> rfl

@[simp] theorem dBlinks_open (st : State) :
    (detectBlinks st).eyeOpenFrames = st.eyeOpenFrames := by
  simp only [detectBlinks]; split <;> split <;> rfl

@[simp] theorem dBlinks_photo (st : State) :
    (detectBlinks st).photoSpoofingDetected = st.photoSpoofingDetected := by
  simp only [detectBlinks]; split <;> split <;> rfl

@[simp] theorem dBlinks_screen (st : State) :
    (detectBlinks st).screenSpoofingDetected = st.screenSpoofingDetected := by
  simp only [detectBlinks]; split <;> split <;> rfl

@[simp] theorem dBlinks_history (st : State) :
    (detectBlinks st).frameHistory = st.frameHistory := by
  simp only [detectBlinks]; split <;> split <;> rfl

theorem dBlinks_count (st : State) :
    (detectBlinks st).blinkCount =
      if EYE_AR_CONSEC_FRAMES ≤ st.eyeClosedFrames ∧ st.blinkDetected = false
      then st.blinkCount + 1 else st.blinkCount := by
  simp only [detectBlinks]; split <;> split <;> rfl

theorem dBlinks_latch (st : State) :
    (detectBlinks st).blinkDetected =
      if EYE_AR_CONSEC_FRAMES ≤ st.eyeOpenFrames then false
      else if EYE_AR_CONSEC_FRAMES ≤ st.eyeClosedFrames ∧ st.blinkDetected = false
      then true else st.blinkDetected := by
  simp only [detectBlinks]
  by_cases h1 : EYE_AR_CONSEC_FRAMES ≤ st.eyeClosedFrames ∧ st.blinkDetected = false <;>
    by_cases h2 : EYE_AR_CONSEC_FRAMES ≤ st.eyeOpenFrames <;>
    simp [h1, h2]

@[simp] theorem dMouth_blinkCount (st : State) :
    (detectMouthMovements st).blinkCount = st.blinkCount := by
  simp only [detectMouthMovements]; split <;> split <;> rfl

@[simp] theorem dMouth_blinkDetected (st : State) :
    (detectMouthMovements st).blinkDetected = st.blinkDetected := by
  simp only [detectMouthMovements]; split <;> split <;> rfl

@[simp] theorem dMouth_closed (st : State) :
    (detectMouthMovements st).eyeClosedFrames = st.eyeClosedFrames := by
  simp only [detectMouthMovements]; split <;> split <;> rfl

@[simp] theorem dMouth_open (st : State) :
    (detectMouthMovements st).eyeOpenFrames = st.eyeOpenFrames := by
  simp only [detectMouthMovements]; split <;> split <;> rfl

@[simp] theorem dMouth_photo (st : State) :
    (detectMouthMovements st).photoSpoofingDetected = st.photoSpoofingDetected := by
  simp only [detectMouthMovements]; split <;> split <;> rfl

@[simp] theorem dMouth_screen (st : State) :
    (detectMouthMovements st).screenSpoofingDetected = st.screenSpoofingDetected := by
  simp only [detectMouthMovements]; split <;> split <;> rfl

@[simp] theorem dMouth_history (st : State) :
    (detectMouthMovements st).frameHistory = st.frameHistory := by
  simp only [detectMouthMovements]; split <;> split <;> rfl

@[simp] theorem dHM_blinkCount (d : Detection) (t : ℤ) (st : State) :
    (detectHeadMovement d t st).blinkCount = st.blinkCount := by
  simp only [detectHeadMovement]
  cases d.nose with
  | nil => rfl
  | cons q qs =>
    repeat' split
    all_goals rfl

@[simp] theorem dHM_blinkDetected (d : Detection) (t : ℤ) (st : State) :
    (detectHeadMovement d t st).blinkDetected = st.blinkDetected := by
  simp only [detectHeadMovement]
  cases d.nose with
  | nil => rfl
  | cons q qs =>
    repeat' split
    all_goals rfl

@[simp] theorem dHM_closed (d : Detection) (t : ℤ) (st : State) :
    (detectHeadMovement d t st).eyeClosedFrames = st.eyeClosedFrames := by
  simp only [detectHeadMovement]
  cases d.nose with
  | nil => rfl
  | cons q qs =>
    repeat' split
    all_goals rfl

@[simp] theorem dHM_open (d : Detection) (t : ℤ) (st : State) :
    (detectHeadMovement d t st).eyeOpenFrames = st.eyeOpenFrames := by
  simp only [detectHeadMovement]
  cases d.nose with
  | nil => rfl
  | cons q qs =>
    repeat' split
    all_goals rfl

@[simp] theorem dHM_screen (d : Detection) (t : ℤ) (st : State) :
    (detectHeadMovement d t st).screenSpoofingDetected = st.screenSpoofingDetected := by
  simp only [detectHeadMovement]
  cases d.nose with
  | nil => rfl
  | cons q qs =>
    repeat' split
    all_goals rfl

theorem dHM_photo_mono (d : Detection) (t : ℤ) (st : State)
    (h : st.photoSpoofingDetected = true) :
    (detectHeadMovement d t st).photoSpoofingDetected = true := by
  simp only [detectHeadMovement]
  cases d.nose with
  | nil => exact h
  | cons q qs =>
    repeat' split
    all_goals simp [h]

@[simp] theorem dSpoof_blinkCount (sqrt : ℚ → ℚ) (r : ℚ) (st : State) :
    (detectSpoofing sqrt r st).blinkCount = st.blinkCount := by
  simp only [detectSpoofing]; split <;> (try split) <;> rfl

@[simp] theorem dSpoof_blinkDetected (sqrt : ℚ → ℚ) (r : ℚ) (st : State) :
    (detectSpoofing sqrt r st).blinkDetected = st.blinkDetected := by
  simp only [detectSpoofing]; split <;> (try split) <;> rfl

@[simp] theorem dSpoof_closed (sqrt : ℚ → ℚ) (r : ℚ) (st : State) :
    (detectSpoofing sqrt r st).eyeClosedFrames = st.eyeClosedFrames := by
  simp only [detectSpoofing]; split <;> (try split) <;> rfl

@[simp] theorem dSpoof_open (sqrt : ℚ → ℚ) (r : ℚ) (st : State) :
    (detectSpoofing sqrt r st).eyeOpenFrames = st.eyeOpenFrames := by
  simp only [detectSpoofing]; split <;> (try split) <;> rfl

@[simp] theorem dSpoof_photo (sqrt : ℚ → ℚ) (r : ℚ) (st : State) :
    (detectSpoofing sqrt r st).photoSpoofingDetected = st.photoSpoofingDetected := by
  simp only [detectSpoofing]; split <;> (try split) <;> rfl

@[simp] theorem dSpoof_history (sqrt : ℚ → ℚ) (r : ℚ) (st : State) :
    (detectSpoofing sqrt r st).frameHistory = st.frameHistory := by
  simp only [detectSpoofing]; split <;> (try split) <;> rfl

theorem dSpoof_screen_mono (sqrt : ℚ → ℚ) (r : ℚ) (st : State)
    (h : st.screenSpoofingDetected = true) :
    (detectSpoofing sqrt r st).screenSpoofingDetected = true := by
  simp only [detectSpoofing]; split <;> (try split) <;> simp [h]

@[simp] theorem anti_blinkCount (sqrt : ℚ → ℚ) (st : State) :
    (calculateAntiSpoofingScore sqrt st).blinkCount = st.blinkCount := by
  simp only [calculateAntiSpoofingScore]

@[simp] theorem anti_blinkDetected (sqrt : ℚ → ℚ) (st : State) :
    (calculateAntiSpoofingScore sqrt st).blinkDetected = st.blinkDetected := by
  simp only [calculateAntiSpoofingScore]

@[simp] theorem anti_closed (sqrt : ℚ → ℚ) (st : State) :
    (calculateAntiSpoofingScore sqrt st).eyeClosedFrames = st.eyeClosedFrames := by
  simp only [calculateAntiSpoofingScore]

@[simp] theorem anti_open (sqrt : ℚ → ℚ) (st : State) :
    (calculateAntiSpoofingScore sqrt st).eyeOpenFrames = st.eyeOpenFrames := by
  simp only [calculateAntiSpoofingScore]

@[simp] theorem anti_photo (sqrt : ℚ → ℚ) (st : State) :
    (calculateAntiSpoofingScore sqrt st).photoSpoofingDetected = st.photoSpoofingDetected := by
  simp only [calculateAntiSpoofingScore]

@[simp] theorem anti_screen (sqrt : ℚ → ℚ) (st : State) :
    (calculateAntiSpoofingScore sqrt st).screenSpoofingDetected = st.screenSpoofingDetected := by
  simp only [calculateAntiSpoofingScore]

@[simp] theorem anti_history (sqrt : ℚ → ℚ) (st : State) :
    (calculateAntiSpoofingScore sqrt st).frameHistory = st.frameHistory := by
  simp only [calculateAntiSpoofingScore]

@[simp] theorem cLS_blinkCount (st : State) :
    (calculateLivenessScore st).blinkCount = st.blinkCount := by
  simp only [calculateLivenessScore]

@[simp] theorem cLS_blinkDetected (st : State) :
    (calculateLivenessScore st).blinkDetected = st.blinkDetected := by
  simp only [calculateLivenessScore]

@[simp] theorem cLS_closed (st : State) :
    (calculateLivenessScore st).eyeClosedFrames = st.eyeClosedFrames := by
  simp only [calculateLivenessScore]

@[simp] theorem cLS_open (st : State) :
    (calculateLivenessScore st).eyeOpenFrames = st.eyeOpenFrames := by
  simp only [calculateLivenessScore]

@[simp] theorem cLS_photo (st : State) :
    (calculateLivenessScore st).photoSpoofingDetected = st.photoSpoofingDetected := by
  simp only [calculateLivenessScore]

@[simp] theorem cLS_screen (st : State) :
    (calculateLivenessScore st).screenSpoofingDetected = st.screenSpoofingDetected := by
  simp only [calculateLivenessScore]

@[simp] theorem cLS_history (st : State) :
    (calculateLivenessScore st).frameHistory = st.frameHistory := by
  simp only [calculateLivenessScore]

/-! ## Claim C7 -/

/-- C7: `processFrame` never throws: a frame on which per-frame
processing raises is caught and mapped to the literal error snapshot
(`status = error`, `spoofingDetected = true`, `isActive = false`) while
the session state is left exactly as of the last completed update.  In
the embedding `detectLiveness` is a total function and the raising frame
is the input `FrameInput.err`. -/
theorem error_frame_fail_closed (sqrt : ℚ → ℚ) (st : State) :
    detectLiveness sqrt FrameInput.err st = (st, errorSnapshot) ∧
    errorSnapshot.status = Status.error ∧
    errorSnapshot.spoofingDetected = true ∧
    errorSnapshot.isActive = false :=
  ⟨rfl, rfl, rfl, rfl⟩

/-! ## Claim C8 -/

/-- C8: a frame with more than one detection returns early with status
`multiple_faces` and mutates no detector state: the post state equals the
previous state with only `livenessStatus` rewritten, so `blinkCount`,
the consecutive-frame counters, the latches, `headMovementDetected`, the
spoof flags, the motion history and all scores are unchanged. -/
theorem multiple_faces_no_mutation (sqrt : ℚ → ℚ) (dets : List Detection) (r : ℚ) (t : ℤ)
    (st : State) (h : 2 ≤ dets.length) :
    detectLiveness sqrt (FrameInput.ok dets r t) st =
      ({ st with livenessStatus := Status.multiple_faces },
       getLivenessData { st with livenessStatus := Status.multiple_faces }) ∧
    (detectLiveness sqrt (FrameInput.ok dets r t) st).2.status = Status.multiple_faces := by
  refine ⟨detectLiveness_multi_eq sqrt dets r t st h, ?_⟩
  rw [detectLiveness_multi_eq sqrt dets r t st h]
  rfl

theorem multiple_faces_no_mutation_witness :
    detectLiveness sqrtW (FrameInput.ok [detOpen, detOpen] 0 0) stGood =
      ({ stGood with livenessStatus := Status.multiple_faces },
       getLivenessData { stGood with livenessStatus := Status.multiple_faces }) :=
  (multiple_faces_no_mutation sqrtW [detOpen, detOpen] 0 0 stGood (by decide)).1

/-! ## Claim C10 -/

/-- C10: a zero-face frame only rewrites the status: the snapshot
carries the previous frame's values for every other field (so it can
report `isActive = true` when the verdict was true earlier), and on a
fresh or just-reset session it reports
`status = no_face, isActive = false, eyeBlinkCount = 0`. -/
theorem no_face_carries_previous (sqrt : ℚ → ℚ) (r : ℚ) (t : ℤ) (st st' : State)
    (snap : Snapshot) (h : detectLiveness sqrt (FrameInput.ok [] r t) st = (st', snap)) :
    st' = { st with livenessStatus := Status.no_face } ∧
    snap = getLivenessData { st with livenessStatus := Status.no_face } ∧
    snap.status = Status.no_face ∧
    snap.isActive = st.isLivenessActive ∧
    snap.eyeBlinkCount = st.blinkCount ∧
    snap.photoSpoofingDetected = some st.photoSpoofingDetected ∧
    snap.screenSpoofingDetected = some st.screenSpoofingDetected ∧
    snap.antiSpoofingScore = st.antiSpoofingScore ∧
    snap.livenessScore = st.livenessScore ∧
    snap.realPersonScore = st.realPersonScore ∧
    (st.isLivenessActive = true → snap.isActive = true) ∧
    (st = initState → snap.isActive = false ∧ snap.eyeBlinkCount = 0) ∧
    (∀ st0 : State, st = reset st0 → snap.isActive = false ∧ snap.eyeBlinkCount = 0) := by
  rw [detectLiveness_zero_eq] at h
  obtain ⟨h1, h2⟩ := Prod.mk.injEq .. ▸ h
  subst h1
  subst h2
  refine ⟨rfl, rfl, rfl, rfl, rfl, rfl, rfl, rfl, rfl, rfl, fun hA => ?_, fun hI => ?_, fun st0 hR => ?_⟩
  · simpa [getLivenessData] using hA
  · subst hI; exact ⟨rfl, rfl⟩
  · subst hR; exact ⟨rfl, rfl⟩

theorem no_face_carries_previous_witness :
    (detectLiveness sqrtW (FrameInput.ok [] 0 0)
        { initState with isLivenessActive := true }).2.isActive = true := by
  have h := no_face_carries_previous sqrtW 0 0 { initState with isLivenessActive := true }
    (detectLiveness sqrtW (FrameInput.ok [] 0 0) { initState with isLivenessActive := true }).1
    (detectLiveness sqrtW (FrameInput.ok [] 0 0) { initState with isLivenessActive := true }).2
    rfl
  exact h.2.2.2.2.2.2.2.2.2.2.1 rfl

/-! ## Final verdict and status resolution -/

theorem cLS_isActive_iff (s : State) :
    (calculateLivenessScore s).isLivenessActive = true ↔
      (MIN_LIVENESS_SCORE ≤ (calculateLivenessScore s).livenessScore ∧
       MIN_BLINKS_REQUIRED ≤ (calculateLivenessScore s).blinkCount ∧
       (calculateLivenessScore s).headMovementDetected = true ∧
       ANTI_SPOOFING_THRESHOLD ≤ (calculateLivenessScore s).antiSpoofingScore ∧
       (calculateLivenessScore s).photoSpoofingDetected = false ∧
       (calculateLivenessScore s).screenSpoofingDetected = false) := by
  simp [calculateLivenessScore, Bool.and_eq_true, decide_eq_true_eq, Bool.not_eq_true',
    and_assoc]

theorem cLS_not_active_of_blinkCount_le_one (s : State)
    (h : (calculateLivenessScore s).blinkCount ≤ 1) :
    (calculateLivenessScore s).isLivenessActive = false := by
  cases hx : (calculateLivenessScore s).isLivenessActive
  · rfl
  · have h2 := ((cLS_isActive_iff s).mp hx).2.1
    rw [MIN_BLINKS_REQUIRED] at h2
    omega

theorem cLS_not_active_of_photo (s : State)
    (h : (calculateLivenessScore s).photoSpoofingDetected = true) :
    (calculateLivenessScore s).isLivenessActive = false := by
  cases hx : (calculateLivenessScore s).isLivenessActive
  · rfl
  · have h2 := ((cLS_isActive_iff s).mp hx).2.2.2.2.1
    rw [h] at h2
    cases h2

theorem cLS_status (s : State) :
    (calculateLivenessScore s).livenessStatus =
      if (calculateLivenessScore s).isLivenessActive = true then Status.active
      else getDetailedStatus (calculateLivenessScore s) := by
  simp [calculateLivenessScore, getDetailedStatus]

theorem statusSpec_one (s : State) :
    statusSpec 1 s =
      if s.isLivenessActive = true then Status.active else getDetailedStatus s := rfl

/-! ## Claim C1 -/

/-- C1: after a successfully processed single-face frame the final
verdict `isActive` is true iff all six gates hold simultaneously on the
resulting state (`livenessScore ≥ 80`, `blinkCount ≥ 2`, head movement
detected, `antiSpoofingScore ≥ 70`, no photo spoof, no screen spoof);
in particular `livenessScore = 95` with `blinkCount = 1` yields
`isActive = false`. -/
theorem final_verdict_iff_gates (sqrt : ℚ → ℚ) (d : Detection) (r : ℚ) (t : ℤ)
    (st st' : State) (snap : Snapshot)
    (h : detectLiveness sqrt (FrameInput.ok [d] r t) st = (st', snap)) :
    (st'.isLivenessActive = true ↔
      (MIN_LIVENESS_SCORE ≤ st'.livenessScore ∧
       MIN_BLINKS_REQUIRED ≤ st'.blinkCount ∧
       st'.headMovementDetected = true ∧
       ANTI_SPOOFING_THRESHOLD ≤ st'.antiSpoofingScore ∧
       st'.photoSpoofingDetected = false ∧
       st'.screenSpoofingDetected = false)) ∧
    (st'.livenessScore = 95 → st'.blinkCount = 1 → st'.isLivenessActive = false) := by
  rw [detectLiveness_single_eq] at h
  obtain ⟨h1, h2⟩ := Prod.mk.injEq .. ▸ h
  subst h1
  exact ⟨cLS_isActive_iff _, fun _ hbc => cLS_not_active_of_blinkCount_le_one _ (by omega)⟩

theorem final_verdict_iff_gates_witness :
    ((detectLiveness sqrtW (FrameInput.ok [detOpen] 0 0) stGood).1).isLivenessActive = true := by
  have h := final_verdict_iff_gates sqrtW detOpen 0 0 stGood
    (detectLiveness sqrtW (FrameInput.ok [detOpen] 0 0) stGood).1
    (detectLiveness sqrtW (FrameInput.ok [detOpen] 0 0) stGood).2 rfl
  exact h.1.mpr (by
    norm_num [detectLiveness, calculateEyeAspectRatio, calculateMouthAspectRatio, detectBlinks,
      detectMouthMovements, detectHeadMovement, detectSpoofing, calculateAntiSpoofingScore,
      calculateLivenessScore, calculateRealPersonScore, calculateMovementVariation,
      calculateExpressionVariation, getLivenessData, frameEAR, frameMAR, getEAR, getP, distance,
      sqrtW, pairSums, anyBigMove, initState, stGood, detOpen, eyeOpenPts, EYE_AR_THRESHOLD,
      EYE_AR_CONSEC_FRAMES, MOUTH_AR_THRESHOLD, MOUTH_AR_CONSEC_FRAMES, MIN_BLINKS_REQUIRED,
      MIN_LIVENESS_SCORE, ANTI_SPOOFING_THRESHOLD, HEAD_MOVEMENT_THRESHOLD,
      PHOTO_SPOOFING_THRESHOLD, maxHistorySize])

/-! ## Claim C2 -/

/-- C2: the status of a processed frame is resolved by the first-match
priority cascade (`no_face`, `multiple_faces`, `active`,
`photo_detected`, `screen_detected`, `need_blinks`, `need_movement`,
`suspicious`, `inactive`), here stated as equality with the spec-side
cascade `statusSpec`; in particular a single-face frame ending with the
photo-spoof flag raised and `blinkCount < 2` resolves to
`photo_detected`, not `need_blinks`. -/
theorem status_priority_cascade (sqrt : ℚ → ℚ) (dets : List Detection) (r : ℚ) (t : ℤ)
    (st st' : State) (snap : Snapshot)
    (h : detectLiveness sqrt (FrameInput.ok dets r t) st = (st', snap)) :
    snap.status = statusSpec dets.length st' ∧
    (dets.length = 1 → st'.photoSpoofingDetected = true → st'.blinkCount < 2 →
      snap.status = Status.photo_detected) := by
  rcases dets with _ | ⟨d, rest⟩
  · rw [detectLiveness_zero_eq] at h
    obtain ⟨h1, h2⟩ := Prod.mk.injEq .. ▸ h
    subst h1
    subst h2
    exact ⟨rfl, fun hc => by cases hc⟩
  · rcases rest with _ | ⟨d2, rest2⟩
    · rw [detectLiveness_single_eq] at h
      obtain ⟨h1, h2⟩ := Prod.mk.injEq .. ▸ h
      subst h1
      subst h2
      constructor
      · show (calculateLivenessScore _).livenessStatus = statusSpec 1 _
        rw [cLS_status, statusSpec_one]
      · intro _ hphoto _
        show (calculateLivenessScore _).livenessStatus = _
        rw [cLS_status, cLS_not_active_of_photo _ hphoto]
        have hp2 := hphoto
        simp only [cLS_photo, anti_photo, dSpoof_photo] at hp2
        simp [getDetailedStatus, hp2]
    · have hlen : 2 ≤ (d :: d2 :: rest2).length := by simp
      rw [detectLiveness_multi_eq _ _ _ _ _ hlen] at h
      obtain ⟨h1, h2⟩ := Prod.mk.injEq .. ▸ h
      subst h1
      subst h2
      refine ⟨?_, fun hc => by simp at hc⟩
      show Status.multiple_faces = statusSpec (rest2.length + 2) _
      simp [statusSpec]

theorem status_priority_cascade_witness :
    (detectLiveness sqrtW (FrameInput.ok [detNose ⟨0, 0⟩] 0 0) stStill).2.status =
      Status.photo_detected := by
  have h := status_priority_cascade sqrtW [detNose ⟨0, 0⟩] 0 0 stStill
    (detectLiveness sqrtW (FrameInput.ok [detNose ⟨0, 0⟩] 0 0) stStill).1
    (detectLiveness sqrtW (FrameInput.ok [detNose ⟨0, 0⟩] 0 0) stStill).2 rfl
  exact h.2 rfl (by
    norm_num [detectLiveness, calculateEyeAspectRatio, calculateMouthAspectRatio, detectBlinks,
      detectMouthMovements, detectHeadMovement, detectSpoofing, calculateAntiSpoofingScore,
      calculateLivenessScore, calculateRealPersonScore, calculateMovementVariation,
      calculateExpressionVariation, getLivenessData, frameEAR, frameMAR, getEAR, getP, distance,
      sqrtW, pairSums, anyBigMove, initState, stStill, detNose, eyeOpenPts, EYE_AR_THRESHOLD,
      EYE_AR_CONSEC_FRAMES, MOUTH_AR_THRESHOLD, MOUTH_AR_CONSEC_FRAMES, MIN_BLINKS_REQUIRED,
      MIN_LIVENESS_SCORE, ANTI_SPOOFING_THRESHOLD, HEAD_MOVEMENT_THRESHOLD,
      PHOTO_SPOOFING_THRESHOLD, maxHistorySize]) (by
    norm_num [detectLiveness, calculateEyeAspectRatio, calculateMouthAspectRatio, detectBlinks,
      detectMouthMovements, detectHeadMovement, detectSpoofing, calculateAntiSpoofingScore,
      calculateLivenessScore, calculateRealPersonScore, calculateMovementVariation,
      calculateExpressionVariation, getLivenessData, frameEAR, frameMAR, getEAR, getP, distance,
      sqrtW, pairSums, anyBigMove, initState, stStill, detNose, eyeOpenPts, EYE_AR_THRESHOLD,
      EYE_AR_CONSEC_FRAMES, MOUTH_AR_THRESHOLD, MOUTH_AR_CONSEC_FRAMES, MIN_BLINKS_REQUIRED,
      MIN_LIVENESS_SCORE, ANTI_SPOOFING_THRESHOLD, HEAD_MOVEMENT_THRESHOLD,
      PHOTO_SPOOFING_THRESHOLD, maxHistorySize])

/-! ## Claim C3: sticky spoof flags and reset -/

theorem photo_mono_frame (sqrt : ℚ → ℚ) (i : FrameInput) (st : State)
    (h : st.photoSpoofingDetected = true) :
    (detectLiveness sqrt i st).1.photoSpoofingDetected = true := by
  cases i with
  | err => exact h
  | ok dets r t =>
    rcases dets with _ | ⟨d, rest⟩
    · rw [detectLiveness_zero_eq]; exact h
    · rcases rest with _ | ⟨d2, rest2⟩
      · rw [detectLiveness_single_eq]
        simp only [cLS_photo, anti_photo, dSpoof_photo]
        exact dHM_photo_mono _ _ _ (by simp [h])
      · rw [detectLiveness_multi_eq _ _ _ _ _ (by simp)]
        exact h

theorem screen_mono_frame (sqrt : ℚ → ℚ) (i : FrameInput) (st : State)
    (h : st.screenSpoofingDetected = true) :
    (detectLiveness sqrt i st).1.screenSpoofingDetected = true := by
  cases i with
  | err => exact h
  | ok dets r t =>
    rcases dets with _ | ⟨d, rest⟩
    · rw [detectLiveness_zero_eq]; exact h
    · rcases rest with _ | ⟨d2, rest2⟩
      · rw [detectLiveness_single_eq]
        simp only [cLS_screen, anti_screen]
        exact dSpoof_screen_mono _ _ _ (by simp [h])
      · rw [detectLiveness_multi_eq _ _ _ _ _ (by simp)]
        exact h

theorem photo_mono_seq (sqrt : ℚ → ℚ) (l : List FrameInput) : ∀ st : State,
    st.photoSpoofingDetected = true → (processSeq sqrt l st).photoSpoofingDetected = true := by
  induction l with
  | nil => exact fun st h => h
  | cons f rest ih =>
    intro st h
    rw [processSeq_cons]
    exact ih _ (photo_mono_frame sqrt f st h)

theorem screen_mono_seq (sqrt : ℚ → ℚ) (l : List FrameInput) : ∀ st : State,
    st.screenSpoofingDetected = true → (processSeq sqrt l st).screenSpoofingDetected = true := by
  induction l with
  | nil => exact fun st h => h
  | cons f rest ih =>
    intro st h
    rw [processSeq_cons]
    exact ih _ (screen_mono_frame sqrt f st h)

/-- C3: the spoof flags are monotone stuck-on: once
`photoSpoofingDetected` or `screenSpoofingDetected` is true it stays
true after every further sequence of `detectLiveness` calls (for every
state, hence for every reachable one), only `reset` makes them false
again, and `reset` writes every session field back to its creation-time
value (flags false, `blinkCount` 0, frame counters and latches cleared,
motion history empty, status `pending`, scores 0) — the sole field it
leaves alone is the per-frame scratch value `eyeAspectRatio`, which is
overwritten before any read on the next processed frame. -/
theorem spoof_flags_sticky (sqrt : ℚ → ℚ) (st : State) (l : List FrameInput) :
    (st.photoSpoofingDetected = true →
      (processSeq sqrt l st).photoSpoofingDetected = true) ∧
    (st.screenSpoofingDetected = true →
      (processSeq sqrt l st).screenSpoofingDetected = true) ∧
    (reset st).photoSpoofingDetected = false ∧
    (reset st).screenSpoofingDetected = false ∧
    reset st = { initState with eyeAspectRatio := st.eyeAspectRatio } :=
  ⟨photo_mono_seq sqrt l st, screen_mono_seq sqrt l st, rfl, rfl, rfl⟩

theorem spoof_flags_sticky_witness :
    (processSeq sqrtW [FrameInput.ok [detOpen] 0 0]
        { initState with photoSpoofingDetected := true }).photoSpoofingDetected = true :=
  (spoof_flags_sticky sqrtW { initState with photoSpoofingDetected := true }
    [FrameInput.ok [detOpen] 0 0]).1 rfl

/-! ## Claim C5: bounded FIFO motion history -/

theorem dHM_nose_nil (d : Detection) (t : ℤ) (s : State) (hn : d.nose = []) :
    detectHeadMovement d t s = s := by
  simp [detectHeadMovement, hn]

theorem dHM_history_cons (d : Detection) (t : ℤ) (s : State) (q : Point) (qs : List Point)
    (hn : d.nose = q :: qs) :
    (detectHeadMovement d t s).frameHistory =
      if maxHistorySize < (s.frameHistory ++ [HistEntry.mk q.x q.y t]).length
      then (s.frameHistory ++ [HistEntry.mk q.x q.y t]).tail
      else s.frameHistory ++ [HistEntry.mk q.x q.y t] := by
  simp only [detectHeadMovement, hn]
  repeat' split
  all_goals rfl

theorem frame_history_none (sqrt : ℚ → ℚ) (f : FrameInput) (st : State)
    (h : frameEntry f = none) :
    (detectLiveness sqrt f st).1.frameHistory = st.frameHistory := by
  cases f with
  | err => rfl
  | ok dets r t =>
    rcases dets with _ | ⟨d, rest⟩
    · rw [detectLiveness_zero_eq]
    · rcases rest with _ | ⟨d2, rest2⟩
      · rw [detectLiveness_single_eq]
        simp only [cLS_history, anti_history, dSpoof_history]
        cases hn : d.nose with
        | nil => rw [dHM_nose_nil _ _ _ hn]; simp
        | cons q qs =>
          exfalso
          simp [frameEntry, hn] at h
      · rw [detectLiveness_multi_eq _ _ _ _ _ (by simp)]

theorem frame_history_some (sqrt : ℚ → ℚ) (f : FrameInput) (st : State) (e : HistEntry)
    (h : frameEntry f = some e) :
    (detectLiveness sqrt f st).1.frameHistory =
      if maxHistorySize < (st.frameHistory ++ [e]).length
      then (st.frameHistory ++ [e]).tail
      else st.frameHistory ++ [e] := by
  cases f with
  | err => exact absurd h (by simp [frameEntry])
  | ok dets r t =>
    rcases dets with _ | ⟨d, rest⟩
    · exact absurd h (by simp [frameEntry])
    · rcases rest with _ | ⟨d2, rest2⟩
      · rw [detectLiveness_single_eq]
        simp only [cLS_history, anti_history, dSpoof_history]
        cases hn : d.nose with
        | nil => exact absurd h (by simp [frameEntry, hn])
        | cons q qs =>
          have he : e = HistEntry.mk q.x q.y t := by
            simp [frameEntry, hn] at h
            exact h.symm
          subst he
          rw [dHM_history_cons _ _ _ _ _ hn]
          simp
      · exact absurd h (by simp [frameEntry])

theorem lastN_self {α : Type} {n : ℕ} (l : List α) (h : l.length ≤ n) : lastN n l = l := by
  unfold lastN
  rw [Nat.sub_eq_zero_of_le h, List.drop_zero]

theorem length_lastN {α : Type} (n : ℕ) (l : List α) : (lastN n l).length ≤ n := by
  unfold lastN
  rw [List.length_drop]
  omega

theorem step_hist_eq_lastN (l : List HistEntry) (e : HistEntry) (h : l.length ≤ 10) :
    (if maxHistorySize < (l ++ [e]).length then (l ++ [e]).tail else l ++ [e]) =
      lastN 10 (l ++ [e]) := by
  unfold lastN
  by_cases hc : maxHistorySize < (l ++ [e]).length
  · rw [if_pos hc]
    have h1 : (l ++ [e]).length - 10 = 1 := by
      simp only [List.length_append, List.length_cons, List.length_nil] at *
      simp only [maxHistorySize] at hc
      omega
    rw [h1, List.drop_one]
  · rw [if_neg hc]
    have h1 : (l ++ [e]).length - 10 = 0 := by
      simp only [maxHistorySize] at hc
      omega
    rw [h1, List.drop_zero]

theorem lastN_append_lastN {α : Type} (n : ℕ) (X E : List α) :
    lastN n (lastN n X ++ E) = lastN n (X ++ E) := by
  by_cases h : X.length ≤ n
  · rw [lastN_self X h]
  · push_neg at h
    unfold lastN
    rw [List.drop_append_eq_append_drop, List.drop_append_eq_append_drop,
      List.length_append, List.length_append]
    have hAlen : (List.drop (X.length - n) X).length = n := by
      rw [List.length_drop]
      omega
    rw [hAlen]
    congr 1
    · rw [List.drop_drop]
      congr 1
      omega
    · congr 1
      omega

theorem entriesOf_cons_none (f : FrameInput) (l : List FrameInput) (h : frameEntry f = none) :
    entriesOf (f :: l) = entriesOf l := by
  simp [entriesOf, List.filterMap_cons, h]

theorem entriesOf_cons_some (f : FrameInput) (l : List FrameInput) (e : HistEntry)
    (h : frameEntry f = some e) :
    entriesOf (f :: l) = e :: entriesOf l := by
  simp [entriesOf, List.filterMap_cons, h]

theorem history_window (sqrt : ℚ → ℚ) (l : List FrameInput) : ∀ st : State,
    st.frameHistory.length ≤ 10 →
    (processSeq sqrt l st).frameHistory = lastN 10 (st.frameHistory ++ entriesOf l) := by
  induction l with
  | nil =>
    intro st h
    rw [processSeq_nil]
    show st.frameHistory = lastN 10 (st.frameHistory ++ entriesOf [])
    rw [show entriesOf [] = [] from rfl, List.append_nil, lastN_self _ h]
  | cons f rest ih =>
    intro st h
    rw [processSeq_cons]
    cases hf : frameEntry f with
    | none =>
      have hh := frame_history_none sqrt f st hf
      have ih2 := ih (detectLiveness sqrt f st).1 (by rw [hh]; exact h)
      rw [ih2, hh, entriesOf_cons_none _ _ hf]
    | some e =>
      have hh := frame_history_some sqrt f st e hf
      rw [step_hist_eq_lastN _ _ h] at hh
      have hlen2 : (detectLiveness sqrt f st).1.frameHistory.length ≤ 10 := by
        rw [hh]
        exact length_lastN _ _
      have ih2 := ih _ hlen2
      rw [ih2, hh, lastN_append_lastN, entriesOf_cons_some _ _ _ hf, List.append_assoc]
      rfl

/-- C5: after any sequence of processed frames (from any state whose
history respects the capacity, in particular the initial one) the motion
history is exactly the last ten appended entries in arrival order: it
never exceeds 10 entries, equals the 10-entry suffix of the append
stream, and after 11 appends from an empty history the first-appended
entry is gone while the most recent 10 remain. -/
theorem motion_history_fifo (sqrt : ℚ → ℚ) (l : List FrameInput) (st : State)
    (h : st.frameHistory.length ≤ 10) :
    (processSeq sqrt l st).frameHistory.length ≤ 10 ∧
    (processSeq sqrt l st).frameHistory = lastN 10 (st.frameHistory ++ entriesOf l) ∧
    (∀ (e : HistEntry) (rest : List HistEntry), st.frameHistory = [] →
      entriesOf l = e :: rest → rest.length = 10 →
      (processSeq sqrt l st).frameHistory = rest) := by
  have hw := history_window sqrt l st h
  refine ⟨?_, hw, ?_⟩
  · rw [hw]
    exact length_lastN _ _
  · intro e rest h0 h1 h2
    rw [hw, h0, h1]
    show lastN 10 ([] ++ e :: rest) = rest
    rw [List.nil_append]
    unfold lastN
    rw [List.length_cons, h2]
    norm_num

theorem motion_history_fifo_witness :
    (processSeq sqrtW elevenFrames initState).frameHistory =
      [⟨1, 0, 0⟩, ⟨2, 0, 0⟩, ⟨3, 0, 0⟩, ⟨4, 0, 0⟩, ⟨5, 0, 0⟩,
       ⟨6, 0, 0⟩, ⟨7, 0, 0⟩, ⟨8, 0, 0⟩, ⟨9, 0, 0⟩, ⟨10, 0, 0⟩] :=
  (motion_history_fifo sqrtW elevenFrames initState (by norm_num [initState])).2.2
    ⟨0, 0, 0⟩
    [⟨1, 0, 0⟩, ⟨2, 0, 0⟩, ⟨3, 0, 0⟩, ⟨4, 0, 0⟩, ⟨5, 0, 0⟩,
     ⟨6, 0, 0⟩, ⟨7, 0, 0⟩, ⟨8, 0, 0⟩, ⟨9, 0, 0⟩, ⟨10, 0, 0⟩]
    rfl rfl rfl

/-! ## Claim C6: the eye-aspect-ratio formula -/

/-- C6 counterexample: at the concrete eye contour `eyeUnitPts` all
three pairwise distances are 1 (the squared displacements are 1 and
`sqrtW 1 = 1`, agreeing with the mathematical square root), the code's
`getEAR` returns `(1+1)/(2*1) = 1`, while the claim's literal formula —
the vertical distances *averaged*, divided by *twice* the horizontal
distance — gives `((1+1)/2)/(2*1) = 1/2`.  The two disagree. -/
theorem ear_formula_counterexample :
    getEAR sqrtW eyeUnitPts ≠ earSpecFormula sqrtW eyeUnitPts := by
  norm_num [getEAR, earSpecFormula, distance, getP, sqrtW, eyeUnitPts]

/-- C6 (amended): for every 6-point eye contour the code's
`eyeAspectRatio` equals the **sum** of the vertical distances between
points (1,5) and (2,4) divided by twice the horizontal distance between
points (0,3) — equivalently, the vertical distances averaged divided by
(once) the horizontal distance — and the per-frame eye aspect ratio is
the mean of the left-eye and right-eye values so computed. -/
theorem ear_formula_amended (sqrt : ℚ → ℚ) (p0 p1 p2 p3 p4 p5 : Point) :
    getEAR sqrt [p0, p1, p2, p3, p4, p5] =
      (distance sqrt p1 p5 + distance sqrt p2 p4) / (2 * distance sqrt p0 p3) ∧
    getEAR sqrt [p0, p1, p2, p3, p4, p5] =
      earSpecAmended sqrt [p0, p1, p2, p3, p4, p5] ∧
    (∀ (lm : Detection) (st : State),
      (calculateEyeAspectRatio sqrt lm st).eyeAspectRatio =
        (getEAR sqrt lm.leftEye + getEAR sqrt lm.rightEye) / 2) := by
  refine ⟨rfl, ?_, ?_⟩
  · show (distance sqrt p1 p5 + distance sqrt p2 p4) / (2 * distance sqrt p0 p3) =
      ((distance sqrt p1 p5 + distance sqrt p2 p4) / 2) / distance sqrt p0 p3
    rw [div_div]
  · intro lm st
    simp only [calculateEyeAspectRatio, frameEAR]
    split <;> rfl

/-! ## Claim C4: blink run semantics -/

theorem isBelowFrame_elim (sqrt : ℚ → ℚ) (f : FrameInput) (h : isBelowFrame sqrt f = true) :
    ∃ d r t, f = FrameInput.ok [d] r t ∧ frameEAR sqrt d < EYE_AR_THRESHOLD := by
  cases f with
  | err => simp [isBelowFrame] at h
  | ok dets r t =>
    rcases dets with _ | ⟨d, _ | ⟨d2, r2⟩⟩
    · simp [isBelowFrame] at h
    · exact ⟨d, r, t, rfl, by simpa [isBelowFrame] using h⟩
    · simp [isBelowFrame] at h

theorem isAboveFrame_elim (sqrt : ℚ → ℚ) (f : FrameInput) (h : isAboveFrame sqrt f = true) :
    ∃ d r t, f = FrameInput.ok [d] r t ∧ ¬ frameEAR sqrt d < EYE_AR_THRESHOLD := by
  cases f with
  | err => simp [isAboveFrame] at h
  | ok dets r t =>
    rcases dets with _ | ⟨d, _ | ⟨d2, r2⟩⟩
    · simp [isAboveFrame] at h
    · exact ⟨d, r, t, rfl, by simpa [isAboveFrame, not_lt] using h⟩
    · simp [isAboveFrame] at h

theorem blink_step_below (sqrt : ℚ → ℚ) (d : Detection) (r : ℚ) (t : ℤ) (st : State)
    (hB : frameEAR sqrt d < EYE_AR_THRESHOLD) :
    (detectLiveness sqrt (FrameInput.ok [d] r t) st).1.eyeClosedFrames =
      st.eyeClosedFrames + 1 ∧
    (detectLiveness sqrt (FrameInput.ok [d] r t) st).1.eyeOpenFrames = 0 ∧
    (detectLiveness sqrt (FrameInput.ok [d] r t) st).1.blinkCount =
      (if EYE_AR_CONSEC_FRAMES ≤ st.eyeClosedFrames + 1 ∧ st.blinkDetected = false
       then st.blinkCount + 1 else st.blinkCount) ∧
    (detectLiveness sqrt (FrameInput.ok [d] r t) st).1.blinkDetected =
      (if EYE_AR_CONSEC_FRAMES ≤ st.eyeClosedFrames + 1 ∧ st.blinkDetected = false
       then true else st.blinkDetected) := by
  rw [detectLiveness_single_eq]
  simp only [cLS_closed, cLS_open, cLS_blinkCount, cLS_blinkDetected, anti_closed, anti_open,
    anti_blinkCount, anti_blinkDetected, dSpoof_closed, dSpoof_open, dSpoof_blinkCount,
    dSpoof_blinkDetected, dHM_closed, dHM_open, dHM_blinkCount, dHM_blinkDetected,
    dMouth_closed, dMouth_open, dMouth_blinkCount, dMouth_blinkDetected,
    dBlinks_closed, dBlinks_open, dBlinks_count, dBlinks_latch,
    cMAR_closed, cMAR_open, cMAR_blinkCount, cMAR_blinkDetected,
    cEAR_closed, cEAR_open, cEAR_blinkCount, cEAR_blinkDetected]
  simp [hB, EYE_AR_CONSEC_FRAMES]

theorem blink_step_above (sqrt : ℚ → ℚ) (d : Detection) (r : ℚ) (t : ℤ) (st : State)
    (hA : ¬ frameEAR sqrt d < EYE_AR_THRESHOLD) :
    (detectLiveness sqrt (FrameInput.ok [d] r t) st).1.eyeClosedFrames = 0 ∧
    (detectLiveness sqrt (FrameInput.ok [d] r t) st).1.eyeOpenFrames =
      st.eyeOpenFrames + 1 ∧
    (detectLiveness sqrt (FrameInput.ok [d] r t) st).1.blinkCount = st.blinkCount ∧
    (detectLiveness sqrt (FrameInput.ok [d] r t) st).1.blinkDetected =
      (if EYE_AR_CONSEC_FRAMES ≤ st.eyeOpenFrames + 1 then false else st.blinkDetected) := by
  rw [detectLiveness_single_eq]
  simp only [cLS_closed, cLS_open, cLS_blinkCount, cLS_blinkDetected, anti_closed, anti_open,
    anti_blinkCount, anti_blinkDetected, dSpoof_closed, dSpoof_open, dSpoof_blinkCount,
    dSpoof_blinkDetected, dHM_closed, dHM_open, dHM_blinkCount, dHM_blinkDetected,
    dMouth_closed, dMouth_open, dMouth_blinkCount, dMouth_blinkDetected,
    dBlinks_closed, dBlinks_open, dBlinks_count, dBlinks_latch,
    cMAR_closed, cMAR_open, cMAR_blinkCount, cMAR_blinkDetected,
    cEAR_closed, cEAR_open, cEAR_blinkCount, cEAR_blinkDetected]
  simp [hA, EYE_AR_CONSEC_FRAMES]

theorem belowRun (sqrt : ℚ → ℚ) (l : List FrameInput)
    (hl : ∀ f ∈ l, isBelowFrame sqrt f = true) : ∀ st : State,
    (processSeq sqrt l st).eyeClosedFrames = st.eyeClosedFrames + l.length ∧
    (processSeq sqrt l st).eyeOpenFrames = (if l = [] then st.eyeOpenFrames else 0) ∧
    (processSeq sqrt l st).blinkCount = st.blinkCount +
      (if st.blinkDetected = false ∧ l ≠ [] ∧
          EYE_AR_CONSEC_FRAMES ≤ st.eyeClosedFrames + l.length then 1 else 0) ∧
    (processSeq sqrt l st).blinkDetected =
      (st.blinkDetected || decide (l ≠ [] ∧
        EYE_AR_CONSEC_FRAMES ≤ st.eyeClosedFrames + l.length)) := by
  induction l with
  | nil =>
    intro st
    simp [processSeq_nil]
  | cons f rest ih =>
    intro st
    obtain ⟨d, r, t, rfl, hB⟩ := isBelowFrame_elim sqrt f (hl f (by simp))
    obtain ⟨s1, s2, s3, s4⟩ := blink_step_below sqrt d r t st hB
    rw [processSeq_cons]
    obtain ⟨ih1, ih2, ih3, ih4⟩ :=
      ih (fun g hg => hl g (List.mem_cons_of_mem _ hg))
        ((detectLiveness sqrt (FrameInput.ok [d] r t) st).1)
    refine ⟨?_, ?_, ?_, ?_⟩
    · rw [ih1, s1, List.length_cons]
      omega
    · rw [ih2, s2]
      simp
    · rw [ih3, s3, s4, s1, List.length_cons,
        show st.eyeClosedFrames + 1 + rest.length =
          st.eyeClosedFrames + (rest.length + 1) from by omega]
      cases hbd : st.blinkDetected <;>
        by_cases hc1 : EYE_AR_CONSEC_FRAMES ≤ st.eyeClosedFrames + 1 <;>
        by_cases hcl : EYE_AR_CONSEC_FRAMES ≤ st.eyeClosedFrames + (rest.length + 1) <;>
        by_cases hre : rest = [] <;>
        simp [hbd, hc1, hcl, hre] <;>
        omega
    · rw [ih4, s4, s1, List.length_cons,
        show st.eyeClosedFrames + 1 + rest.length =
          st.eyeClosedFrames + (rest.length + 1) from by omega]
      cases hbd : st.blinkDetected <;>
        by_cases hc1 : EYE_AR_CONSEC_FRAMES ≤ st.eyeClosedFrames + 1 <;>
        by_cases hcl : EYE_AR_CONSEC_FRAMES ≤ st.eyeClosedFrames + (rest.length + 1) <;>
        by_cases hre : rest = [] <;>
        simp [hbd, hc1, hcl, hre] <;>
        omega

theorem aboveRun (sqrt : ℚ → ℚ) (l : List FrameInput)
    (hl : ∀ f ∈ l, isAboveFrame sqrt f = true) : ∀ st : State,
    (processSeq sqrt l st).eyeClosedFrames = (if l = [] then st.eyeClosedFrames else 0) ∧
    (processSeq sqrt l st).eyeOpenFrames = st.eyeOpenFrames + l.length ∧
    (processSeq sqrt l st).blinkCount = st.blinkCount ∧
    (processSeq sqrt l st).blinkDetected =
      (if l = [] then st.blinkDetected
       else st.blinkDetected &&
         decide (st.eyeOpenFrames + l.length < EYE_AR_CONSEC_FRAMES)) := by
  induction l with
  | nil =>
    intro st
    simp [processSeq_nil]
  | cons f rest ih =>
    intro st
    obtain ⟨d, r, t, rfl, hA⟩ := isAboveFrame_elim sqrt f (hl f (by simp))
    obtain ⟨s1, s2, s3, s4⟩ := blink_step_above sqrt d r t st hA
    rw [processSeq_cons]
    obtain ⟨ih1, ih2, ih3, ih4⟩ :=
      ih (fun g hg => hl g (List.mem_cons_of_mem _ hg))
        ((detectLiveness sqrt (FrameInput.ok [d] r t) st).1)
    refine ⟨?_, ?_, ?_, ?_⟩
    · rw [ih1, s1]
      simp
    · rw [ih2, s2, List.length_cons]
      omega
    · rw [ih3, s3]
    · rw [ih4, s4, s2, List.length_cons,
        show st.eyeOpenFrames + 1 + rest.length =
          st.eyeOpenFrames + (rest.length + 1) from by omega]
      cases hbd : st.blinkDetected <;>
        by_cases hc1 : EYE_AR_CONSEC_FRAMES ≤ st.eyeOpenFrames + 1 <;>
        by_cases hcl : st.eyeOpenFrames + (rest.length + 1) < EYE_AR_CONSEC_FRAMES <;>
        by_cases hre : rest = [] <;>
        simp [hbd, hc1, hcl, hre] <;>
        omega

/-- C4: a maximal run of at least 3 consecutive below-threshold frames
entered with the latch clear increments the lifetime blink counter by
exactly 1 regardless of the run's length; further below frames, and a
new below run after fewer than 3 above-threshold frames, add nothing;
once at least 3 consecutive at-or-above-threshold frames have elapsed
the `blinkDetected` latch is cleared and the next qualifying run
increments the counter again. -/
theorem blink_run_semantics (sqrt : ℚ → ℚ) (st : State) (l1 l2 l3 : List FrameInput)
    (h1 : ∀ f ∈ l1, isBelowFrame sqrt f = true)
    (h2 : ∀ f ∈ l2, isAboveFrame sqrt f = true)
    (h3 : ∀ f ∈ l3, isBelowFrame sqrt f = true)
    (hbd : st.blinkDetected = false) (hcf : st.eyeClosedFrames = 0)
    (hn1 : 3 ≤ l1.length) (hn3 : 3 ≤ l3.length) :
    (processSeq sqrt l1 st).blinkCount = st.blinkCount + 1 ∧
    (processSeq sqrt l1 st).blinkDetected = true ∧
    (l2.length < 3 →
      (processSeq sqrt (l1 ++ l2 ++ l3) st).blinkCount = st.blinkCount + 1) ∧
    (3 ≤ l2.length →
      (processSeq sqrt (l1 ++ l2) st).blinkDetected = false ∧
      (processSeq sqrt (l1 ++ l2 ++ l3) st).blinkCount = st.blinkCount + 2) := by
  have hl1ne : l1 ≠ [] := by intro hx; rw [hx] at hn1; simp at hn1
  obtain ⟨a1, a2, a3, a4⟩ := belowRun sqrt l1 h1 st
  have ha3 : (processSeq sqrt l1 st).blinkCount = st.blinkCount + 1 := by
    rw [a3, hbd, hcf]
    rw [if_pos ⟨rfl, hl1ne, by rw [EYE_AR_CONSEC_FRAMES]; omega⟩]
  have ha4 : (processSeq sqrt l1 st).blinkDetected = true := by
    rw [a4, hbd, hcf]
    simp [hl1ne, EYE_AR_CONSEC_FRAMES]
    omega
  have ha2 : (processSeq sqrt l1 st).eyeOpenFrames = 0 := by
    rw [a2, if_neg hl1ne]
  refine ⟨ha3, ha4, ?_, ?_⟩
  · intro hm
    simp only [processSeq_append]
    obtain ⟨b1, b2, b3, b4⟩ := aboveRun sqrt l2 h2 (processSeq sqrt l1 st)
    have hb4 : (processSeq sqrt l2 (processSeq sqrt l1 st)).blinkDetected = true := by
      rw [b4]
      by_cases hl2 : l2 = []
      · rw [if_pos hl2, ha4]
      · rw [if_neg hl2, ha4, ha2]
        simp [EYE_AR_CONSEC_FRAMES]
        omega
    obtain ⟨c1, c2, c3, c4⟩ :=
      belowRun sqrt l3 h3 (processSeq sqrt l2 (processSeq sqrt l1 st))
    rw [c3, hb4, b3, ha3]
    simp
  · intro hm
    simp only [processSeq_append]
    obtain ⟨b1, b2, b3, b4⟩ := aboveRun sqrt l2 h2 (processSeq sqrt l1 st)
    have hl2ne : l2 ≠ [] := by intro hx; rw [hx] at hm; simp at hm
    have hb4 : (processSeq sqrt l2 (processSeq sqrt l1 st)).blinkDetected = false := by
      rw [b4, if_neg hl2ne, ha2]
      simp [EYE_AR_CONSEC_FRAMES]
      omega
    refine ⟨hb4, ?_⟩
    have hb1 : (processSeq sqrt l2 (processSeq sqrt l1 st)).eyeClosedFrames = 0 := by
      rw [b1, if_neg hl2ne]
    have hl3ne : l3 ≠ [] := by intro hx; rw [hx] at hn3; simp at hn3
    obtain ⟨c1, c2, c3, c4⟩ :=
      belowRun sqrt l3 h3 (processSeq sqrt l2 (processSeq sqrt l1 st))
    rw [c3, hb4, hb1, b3, ha3]
    rw [if_pos ⟨rfl, hl3ne, by rw [EYE_AR_CONSEC_FRAMES]; omega⟩]

theorem blink_run_semantics_witness :
    (processSeq sqrtW
      ([FrameInput.ok [detClosed] 0 0, FrameInput.ok [detClosed] 0 0,
        FrameInput.ok [detClosed] 0 0] ++
       [FrameInput.ok [detOpen] 0 0, FrameInput.ok [detOpen] 0 0,
        FrameInput.ok [detOpen] 0 0] ++
       [FrameInput.ok [detClosed] 0 0, FrameInput.ok [detClosed] 0 0,
        FrameInput.ok [detClosed] 0 0]) initState).blinkCount = 2 := by
  have hb : isBelowFrame sqrtW (FrameInput.ok [detClosed] 0 0) = true := by
    norm_num [isBelowFrame, frameEAR, getEAR, getP, distance, sqrtW, detClosed, eyeClosedPts,
      EYE_AR_THRESHOLD]
  have ha : isAboveFrame sqrtW (FrameInput.ok [detOpen] 0 0) = true := by
    norm_num [isAboveFrame, frameEAR, getEAR, getP, distance, sqrtW, detOpen, eyeOpenPts,
      EYE_AR_THRESHOLD]
  have h := blink_run_semantics sqrtW initState
    [FrameInput.ok [detClosed] 0 0, FrameInput.ok [detClosed] 0 0,
     FrameInput.ok [detClosed] 0 0]
    [FrameInput.ok [detOpen] 0 0, FrameInput.ok [detOpen] 0 0,
     FrameInput.ok [detOpen] 0 0]
    [FrameInput.ok [detClosed] 0 0, FrameInput.ok [detClosed] 0 0,
     FrameInput.ok [detClosed] 0 0]
    (fun f hf => by simp at hf; subst hf; exact hb)
    (fun f hf => by simp at hf; subst hf; exact ha)
    (fun f hf => by simp at hf; subst hf; exact hb)
    rfl rfl (by decide) (by decide)
  exact (h.2.2.2 (by decide)).2

/-! ## Claim C9: determinism — randomness and timestamps are inert -/

@[simp] theorem eraseTS_x (e : HistEntry) : (eraseTS e).x = e.x := rfl

@[simp] theorem eraseTS_y (e : HistEntry) : (eraseTS e).y = e.y := rfl

@[simp] theorem eraseState_eyeAspectRatio (st : State) :
    (eraseState st).eyeAspectRatio = st.eyeAspectRatio := rfl

@[simp] theorem eraseState_blinkCount (st : State) :
    (eraseState st).blinkCount = st.blinkCount := rfl

@[simp] theorem eraseState_livenessStatus (st : State) :
    (eraseState st).livenessStatus = st.livenessStatus := rfl

@[simp] theorem eraseState_eyeClosedFrames (st : State) :
    (eraseState st).eyeClosedFrames = st.eyeClosedFrames := rfl

@[simp] theorem eraseState_eyeOpenFrames (st : State) :
    (eraseState st).eyeOpenFrames = st.eyeOpenFrames := rfl

@[simp] theorem eraseState_blinkDetected (st : State) :
    (eraseState st).blinkDetected = st.blinkDetected := rfl

@[simp] theorem eraseState_headMovementDetected (st : State) :
    (eraseState st).headMovementDetected = st.headMovementDetected := rfl

@[simp] theorem eraseState_mouthOpenFrames (st : State) :
    (eraseState st).mouthOpenFrames = st.mouthOpenFrames := rfl

@[simp] theorem eraseState_mouthClosedFrames (st : State) :
    (eraseState st).mouthClosedFrames = st.mouthClosedFrames := rfl

@[simp] theorem eraseState_mouthOpenDetected (st : State) :
    (eraseState st).mouthOpenDetected = st.mouthOpenDetected := rfl

@[simp] theorem eraseState_antiSpoofingScore (st : State) :
    (eraseState st).antiSpoofingScore = st.antiSpoofingScore := rfl

@[simp] theorem eraseState_livenessScore (st : State) :
    (eraseState st).livenessScore = st.livenessScore := rfl

@[simp] theorem eraseState_isLivenessActive (st : State) :
    (eraseState st).isLivenessActive = st.isLivenessActive := rfl

@[simp] theorem eraseState_frameHistory (st : State) :
    (eraseState st).frameHistory = st.frameHistory.map eraseTS := rfl

@[simp] theorem eraseState_photo (st : State) :
    (eraseState st).photoSpoofingDetected = st.photoSpoofingDetected := rfl

@[simp] theorem eraseState_screen (st : State) :
    (eraseState st).screenSpoofingDetected = st.screenSpoofingDetected := rfl

@[simp] theorem eraseState_realPersonScore (st : State) :
    (eraseState st).realPersonScore = st.realPersonScore := rfl

theorem eraseState_ext {s1 s2 : State}
    (h1 : s1.eyeAspectRatio = s2.eyeAspectRatio)
    (h2 : s1.blinkCount = s2.blinkCount)
    (h3 : s1.livenessStatus = s2.livenessStatus)
    (h4 : s1.eyeClosedFrames = s2.eyeClosedFrames)
    (h5 : s1.eyeOpenFrames = s2.eyeOpenFrames)
    (h6 : s1.blinkDetected = s2.blinkDetected)
    (h7 : s1.headMovementDetected = s2.headMovementDetected)
    (h8 : s1.mouthOpenFrames = s2.mouthOpenFrames)
    (h9 : s1.mouthClosedFrames = s2.mouthClosedFrames)
    (h10 : s1.mouthOpenDetected = s2.mouthOpenDetected)
    (h11 : s1.antiSpoofingScore = s2.antiSpoofingScore)
    (h12 : s1.livenessScore = s2.livenessScore)
    (h13 : s1.isLivenessActive = s2.isLivenessActive)
    (h14 : s1.frameHistory.map eraseTS = s2.frameHistory.map eraseTS)
    (h15 : s1.photoSpoofingDetected = s2.photoSpoofingDetected)
    (h16 : s1.screenSpoofingDetected = s2.screenSpoofingDetected)
    (h17 : s1.realPersonScore = s2.realPersonScore) :
    eraseState s1 = eraseState s2 := by
  cases s1
  cases s2
  simp only [eraseState] at *
  simp_all

theorem map_eraseTS_tail (l : List HistEntry) :
    l.tail.map eraseTS = (l.map eraseTS).tail := by
  cases l <;> rfl

theorem zip_tail_map (l : List HistEntry) :
    ((l.map eraseTS).zip (l.map eraseTS).tail) =
      (l.zip l.tail).map (Prod.map eraseTS eraseTS) := by
  cases l with
  | nil => rfl
  | cons a as =>
    show (List.zip (List.map eraseTS (a :: as)) (List.map eraseTS as)) = _
    rw [List.zip_map]
    rfl

theorem pairSums_map_erase (l : List HistEntry) : pairSums (l.map eraseTS) = pairSums l := by
  unfold pairSums
  rw [zip_tail_map, List.map_map]
  rfl

theorem anyBigMove_map_erase (l : List HistEntry) :
    anyBigMove (l.map eraseTS) = anyBigMove l := by
  unfold anyBigMove
  rw [zip_tail_map, List.any_map]
  rfl

theorem pairSums_eq_of_map_erase {l1 l2 : List HistEntry}
    (h : l1.map eraseTS = l2.map eraseTS) : pairSums l1 = pairSums l2 := by
  rw [← pairSums_map_erase l1, ← pairSums_map_erase l2, h]

theorem anyBigMove_eq_of_map_erase {l1 l2 : List HistEntry}
    (h : l1.map eraseTS = l2.map eraseTS) : anyBigMove l1 = anyBigMove l2 := by
  rw [← anyBigMove_map_erase l1, ← anyBigMove_map_erase l2, h]

theorem cMV_erase (sqrt : ℚ → ℚ) (st : State) :
    calculateMovementVariation sqrt (eraseState st) = calculateMovementVariation sqrt st := by
  unfold calculateMovementVariation
  simp only [eraseState_frameHistory, List.length_map]
  rw [zip_tail_map, List.map_map]
  simp only [List.length_map]
  rfl

theorem cEAR_erase (sqrt : ℚ → ℚ) (d : Detection) (s : State) :
    calculateEyeAspectRatio sqrt d (eraseState s) =
      eraseState (calculateEyeAspectRatio sqrt d s) := by
  simp only [calculateEyeAspectRatio]
  split <;> rfl

theorem cMAR_erase (sqrt : ℚ → ℚ) (d : Detection) (s : State) :
    calculateMouthAspectRatio sqrt d (eraseState s) =
      eraseState (calculateMouthAspectRatio sqrt d s) := by
  simp only [calculateMouthAspectRatio]
  split <;> rfl

theorem dBlinks_erase (s : State) :
    detectBlinks (eraseState s) = eraseState (detectBlinks s) := by
  simp only [detectBlinks, eraseState_eyeClosedFrames, eraseState_eyeOpenFrames,
    eraseState_blinkDetected]
  split <;> (dsimp only [eraseState]; split <;> rfl)

theorem dMouth_erase (s : State) :
    detectMouthMovements (eraseState s) = eraseState (detectMouthMovements s) := by
  simp only [detectMouthMovements, eraseState_mouthOpenFrames, eraseState_mouthClosedFrames,
    eraseState_mouthOpenDetected]
  split <;> (dsimp only [eraseState]; split <;> rfl)

theorem dSpoof_erase (sqrt : ℚ → ℚ) (r : ℚ) (s : State) :
    detectSpoofing sqrt r (eraseState s) = eraseState (detectSpoofing sqrt r s) := by
  simp only [detectSpoofing, eraseState_frameHistory, List.length_map]
  rw [cMV_erase]
  split <;> (try split) <;> rfl

theorem anti_erase (sqrt : ℚ → ℚ) (s : State) :
    calculateAntiSpoofingScore sqrt (eraseState s) =
      eraseState (calculateAntiSpoofingScore sqrt s) := by
  unfold calculateAntiSpoofingScore
  rw [cMV_erase]
  rfl

theorem cLS_erase (s : State) :
    calculateLivenessScore (eraseState s) = eraseState (calculateLivenessScore s) := rfl

theorem gLD_erase (s : State) : getLivenessData (eraseState s) = getLivenessData s := rfl

theorem rel_of_comm {f : State → State} (hf : ∀ s, f (eraseState s) = eraseState (f s))
    {s1 s2 : State} (h : eraseState s1 = eraseState s2) :
    eraseState (f s1) = eraseState (f s2) := by
  rw [← hf, ← hf, h]

theorem eraseState_fields {s1 s2 : State} (h : eraseState s1 = eraseState s2) :
    s1.frameHistory.map eraseTS = s2.frameHistory.map eraseTS := by
  have := congrArg State.frameHistory h
  simpa using this

theorem dHM_cons_eq (d : Detection) (t : ℤ) (s : State) (q : Point) (qs : List Point)
    (hn : d.nose = q :: qs) :
    detectHeadMovement d t s =
      if maxHistorySize < (s.frameHistory ++ [HistEntry.mk q.x q.y t]).length
      then dHM_core ((s.frameHistory ++ [HistEntry.mk q.x q.y t]).tail) s
      else dHM_core (s.frameHistory ++ [HistEntry.mk q.x q.y t]) s := by
  simp only [detectHeadMovement, hn, dHM_core]
  split <;> rfl

theorem dHM_core_rel (hist1 hist2 : List HistEntry) {s1 s2 : State}
    (h : eraseState s1 = eraseState s2) (hh : hist1.map eraseTS = hist2.map eraseTS) :
    eraseState (dHM_core hist1 s1) = eraseState (dHM_core hist2 s2) := by
  have hlen : hist1.length = hist2.length := by
    have := congrArg List.length hh
    simpa using this
  have hmd : s1.headMovementDetected = s2.headMovementDetected := by
    have := congrArg State.headMovementDetected h
    simpa using this
  have hps : pairSums hist1 = pairSums hist2 := pairSums_eq_of_map_erase hh
  have hab : anyBigMove hist1 = anyBigMove hist2 := anyBigMove_eq_of_map_erase hh
  unfold dHM_core
  by_cases h3 : 3 ≤ hist1.length
  · have h3b : 3 ≤ hist2.length := by omega
    rw [if_pos h3, if_pos h3b]
    by_cases hph : (pairSums hist1).sum / ((pairSums hist1).length : ℚ) <
        PHOTO_SPOOFING_THRESHOLD ∧ 5 ≤ hist1.length
    · have hphb : (pairSums hist2).sum / ((pairSums hist2).length : ℚ) <
          PHOTO_SPOOFING_THRESHOLD ∧ 5 ≤ hist2.length :=
        ⟨by rw [← hps]; exact hph.1, by omega⟩
      rw [if_pos hph, if_pos hphb]
      show { eraseState s1 with
          frameHistory := hist1.map eraseTS
          headMovementDetected := s1.headMovementDetected || anyBigMove hist1
          photoSpoofingDetected := true } =
        { eraseState s2 with
          frameHistory := hist2.map eraseTS
          headMovementDetected := s2.headMovementDetected || anyBigMove hist2
          photoSpoofingDetected := true }
      rw [hh, hab, hmd, h]
    · have hphb : ¬ ((pairSums hist2).sum / ((pairSums hist2).length : ℚ) <
          PHOTO_SPOOFING_THRESHOLD ∧ 5 ≤ hist2.length) := fun hc =>
        hph ⟨by rw [hps]; exact hc.1, by omega⟩
      rw [if_neg hph, if_neg hphb]
      show { eraseState s1 with
          frameHistory := hist1.map eraseTS
          headMovementDetected := s1.headMovementDetected || anyBigMove hist1 } =
        { eraseState s2 with
          frameHistory := hist2.map eraseTS
          headMovementDetected := s2.headMovementDetected || anyBigMove hist2 }
      rw [hh, hab, hmd, h]
  · have h3b : ¬ 3 ≤ hist2.length := by omega
    rw [if_neg h3, if_neg h3b]
    show { eraseState s1 with frameHistory := hist1.map eraseTS } =
      { eraseState s2 with frameHistory := hist2.map eraseTS }
    rw [hh, h]

theorem dHM_rel (d : Detection) (t1 t2 : ℤ) (s1 s2 : State)
    (h : eraseState s1 = eraseState s2) :
    eraseState (detectHeadMovement d t1 s1) = eraseState (detectHeadMovement d t2 s2) := by
  cases hn : d.nose with
  | nil => rw [dHM_nose_nil _ _ _ hn, dHM_nose_nil _ _ _ hn]; exact h
  | cons q qs =>
    have hfh := eraseState_fields h
    have hH : (s1.frameHistory ++ [HistEntry.mk q.x q.y t1]).map eraseTS =
        (s2.frameHistory ++ [HistEntry.mk q.x q.y t2]).map eraseTS := by
      rw [List.map_append, List.map_append, hfh]
      rfl
    have hHlen : (s1.frameHistory ++ [HistEntry.mk q.x q.y t1]).length =
        (s2.frameHistory ++ [HistEntry.mk q.x q.y t2]).length := by
      have := congrArg List.length hH
      simpa using this
    rw [dHM_cons_eq _ _ _ _ _ hn, dHM_cons_eq _ _ _ _ _ hn]
    by_cases hcap : maxHistorySize < (s1.frameHistory ++ [HistEntry.mk q.x q.y t1]).length
    · rw [if_pos hcap, if_pos (hHlen ▸ hcap)]
      exact dHM_core_rel _ _ h (by rw [map_eraseTS_tail, map_eraseTS_tail, hH])
    · rw [if_neg hcap, if_neg (hHlen ▸ hcap)]
      exact dHM_core_rel _ _ h hH

theorem detectLiveness_ok_erase (sqrt : ℚ → ℚ) (dets : List Detection) (r1 r2 : ℚ)
    (t1 t2 : ℤ) (s1 s2 : State) (h : eraseState s1 = eraseState s2) :
    eraseState (detectLiveness sqrt (FrameInput.ok dets r1 t1) s1).1 =
      eraseState (detectLiveness sqrt (FrameInput.ok dets r2 t2) s2).1 ∧
    (detectLiveness sqrt (FrameInput.ok dets r1 t1) s1).2 =
      (detectLiveness sqrt (FrameInput.ok dets r2 t2) s2).2 := by
  rcases dets with _ | ⟨d, _ | ⟨d2, rest2⟩⟩
  · rw [detectLiveness_zero_eq, detectLiveness_zero_eq]
    constructor
    · show eraseState { s1 with livenessStatus := Status.no_face } =
        eraseState { s2 with livenessStatus := Status.no_face }
      calc eraseState { s1 with livenessStatus := Status.no_face }
          = { eraseState s1 with livenessStatus := Status.no_face } := rfl
        _ = { eraseState s2 with livenessStatus := Status.no_face } := by rw [h]
        _ = eraseState { s2 with livenessStatus := Status.no_face } := rfl
    · show getLivenessData { s1 with livenessStatus := Status.no_face } =
        getLivenessData { s2 with livenessStatus := Status.no_face }
      calc getLivenessData { s1 with livenessStatus := Status.no_face }
          = getLivenessData { eraseState s1 with livenessStatus := Status.no_face } := rfl
        _ = getLivenessData { eraseState s2 with livenessStatus := Status.no_face } := by
            rw [h]
        _ = getLivenessData { s2 with livenessStatus := Status.no_face } := rfl
  · have hA : eraseState (calculateAntiSpoofingScore sqrt (detectSpoofing sqrt r1
        (detectHeadMovement d t1 (detectMouthMovements (detectBlinks
          (calculateMouthAspectRatio sqrt d (calculateEyeAspectRatio sqrt d s1))))))) =
        eraseState (calculateAntiSpoofingScore sqrt (detectSpoofing sqrt r2
        (detectHeadMovement d t2 (detectMouthMovements (detectBlinks
          (calculateMouthAspectRatio sqrt d (calculateEyeAspectRatio sqrt d s2))))))) := by
      have r1' := rel_of_comm (cEAR_erase sqrt d) h
      have r2' := rel_of_comm (cMAR_erase sqrt d) r1'
      have r3' := rel_of_comm dBlinks_erase r2'
      have r4' := rel_of_comm dMouth_erase r3'
      have r5' := dHM_rel d t1 t2 _ _ r4'
      have r6' : eraseState (detectSpoofing sqrt r1
          (detectHeadMovement d t1 (detectMouthMovements (detectBlinks
            (calculateMouthAspectRatio sqrt d (calculateEyeAspectRatio sqrt d s1)))))) =
          eraseState (detectSpoofing sqrt r2
          (detectHeadMovement d t2 (detectMouthMovements (detectBlinks
            (calculateMouthAspectRatio sqrt d (calculateEyeAspectRatio sqrt d s2)))))) :=
        rel_of_comm (dSpoof_erase sqrt r1) r5'
      exact rel_of_comm (anti_erase sqrt) r6'
    have hL : eraseState (calculateLivenessScore (calculateAntiSpoofingScore sqrt
        (detectSpoofing sqrt r1 (detectHeadMovement d t1 (detectMouthMovements (detectBlinks
          (calculateMouthAspectRatio sqrt d (calculateEyeAspectRatio sqrt d s1)))))))) =
        eraseState (calculateLivenessScore (calculateAntiSpoofingScore sqrt
        (detectSpoofing sqrt r2 (detectHeadMovement d t2 (detectMouthMovements (detectBlinks
          (calculateMouthAspectRatio sqrt d (calculateEyeAspectRatio sqrt d s2)))))))) :=
      rel_of_comm (fun s => cLS_erase s) hA
    rw [detectLiveness_single_eq, detectLiveness_single_eq]
    refine ⟨hL, ?_⟩
    show getLivenessData _ = getLivenessData _
    calc getLivenessData (calculateLivenessScore (calculateAntiSpoofingScore sqrt
          (detectSpoofing sqrt r1 (detectHeadMovement d t1 (detectMouthMovements (detectBlinks
            (calculateMouthAspectRatio sqrt d (calculateEyeAspectRatio sqrt d s1))))))))
        = getLivenessData (eraseState (calculateLivenessScore (calculateAntiSpoofingScore sqrt
          (detectSpoofing sqrt r1 (detectHeadMovement d t1 (detectMouthMovements (detectBlinks
            (calculateMouthAspectRatio sqrt d (calculateEyeAspectRatio sqrt d s1))))))))) :=
          (gLD_erase _).symm
      _ = getLivenessData (eraseState (calculateLivenessScore (calculateAntiSpoofingScore sqrt
          (detectSpoofing sqrt r2 (detectHeadMovement d t2 (detectMouthMovements (detectBlinks
            (calculateMouthAspectRatio sqrt d (calculateEyeAspectRatio sqrt d s2))))))))) := by
          rw [hL]
      _ = getLivenessData (calculateLivenessScore (calculateAntiSpoofingScore sqrt
          (detectSpoofing sqrt r2 (detectHeadMovement d t2 (detectMouthMovements (detectBlinks
            (calculateMouthAspectRatio sqrt d (calculateEyeAspectRatio sqrt d s2)))))))) :=
          gLD_erase _
  · have hlen : 2 ≤ (d :: d2 :: rest2).length := by simp
    rw [detectLiveness_multi_eq _ _ _ _ _ hlen, detectLiveness_multi_eq _ _ _ _ _ hlen]
    constructor
    · show eraseState { s1 with livenessStatus := Status.multiple_faces } =
        eraseState { s2 with livenessStatus := Status.multiple_faces }
      calc eraseState { s1 with livenessStatus := Status.multiple_faces }
          = { eraseState s1 with livenessStatus := Status.multiple_faces } := rfl
        _ = { eraseState s2 with livenessStatus := Status.multiple_faces } := by rw [h]
        _ = eraseState { s2 with livenessStatus := Status.multiple_faces } := rfl
    · show getLivenessData { s1 with livenessStatus := Status.multiple_faces } =
        getLivenessData { s2 with livenessStatus := Status.multiple_faces }
      calc getLivenessData { s1 with livenessStatus := Status.multiple_faces }
          = getLivenessData { eraseState s1 with livenessStatus := Status.multiple_faces } :=
            rfl
        _ = getLivenessData { eraseState s2 with livenessStatus := Status.multiple_faces } := by
            rw [h]
        _ = getLivenessData { s2 with livenessStatus := Status.multiple_faces } := rfl

theorem runSnapshots_cons (sqrt : ℚ → ℚ) (f : FrameInput) (l : List FrameInput) (st : State) :
    runSnapshots sqrt (f :: l) st =
      (detectLiveness sqrt f st).2 :: runSnapshots sqrt l (detectLiveness sqrt f st).1 := rfl

/-- C9: the snapshot stream is a deterministic function of the landmark
inputs and the prior state: the `Math.random()` draw feeding the unused
expression-variation value and the `Date.now()` timestamps stored in the
motion history influence no flag, score, status or returned field — two
runs over the same detection sequence from states equal up to stored
timestamps return identical snapshots and end in states equal up to
stored timestamps. -/
theorem snapshots_deterministic (sqrt : ℚ → ℚ) (l1 : List FrameInput) :
    ∀ (l2 : List FrameInput) (st1 st2 : State), eraseState st1 = eraseState st2 →
    sameDets l1 l2 = true →
    runSnapshots sqrt l1 st1 = runSnapshots sqrt l2 st2 ∧
    eraseState (processSeq sqrt l1 st1) = eraseState (processSeq sqrt l2 st2) := by
  induction l1 with
  | nil =>
    intro l2 st1 st2 hst hl
    cases l2 with
    | nil => exact ⟨rfl, hst⟩
    | cons g gs => simp [sameDets] at hl
  | cons f fs ih =>
    intro l2 st1 st2 hst hl
    cases l2 with
    | nil => cases f <;> simp [sameDets] at hl
    | cons g gs =>
      cases f with
      | err =>
        cases g with
        | err =>
          have hrest : sameDets fs gs = true := by simpa [sameDets] using hl
          have hmain := ih gs st1 st2 hst hrest
          refine ⟨?_, ?_⟩
          · rw [runSnapshots_cons, runSnapshots_cons, detectLiveness_err_eq,
              detectLiveness_err_eq]
            exact congrArg (errorSnapshot :: ·) hmain.1
          · rw [processSeq_cons, processSeq_cons, detectLiveness_err_eq,
              detectLiveness_err_eq]
            exact hmain.2
        | ok d2 r2 t2 => simp [sameDets] at hl
      | ok dets r t =>
        cases g with
        | err => simp [sameDets] at hl
        | ok dets2 r2 t2 =>
          obtain ⟨hd, hrest⟩ : dets = dets2 ∧ sameDets fs gs = true := by
            simpa [sameDets, Bool.and_eq_true, decide_eq_true_eq] using hl
          subst hd
          have hframe := detectLiveness_ok_erase sqrt dets r r2 t t2 st1 st2 hst
          have hmain := ih gs _ _ hframe.1 hrest
          refine ⟨?_, ?_⟩
          · rw [runSnapshots_cons, runSnapshots_cons, hframe.2, hmain.1]
          · rw [processSeq_cons, processSeq_cons]
            exact hmain.2

theorem snapshots_deterministic_witness :
    runSnapshots sqrtW [FrameInput.ok [detNose ⟨5, 5⟩] (1/3) 7] initState =
      runSnapshots sqrtW [FrameInput.ok [detNose ⟨5, 5⟩] (2/7) 99] initState :=
  (snapshots_deterministic sqrtW [FrameInput.ok [detNose ⟨5, 5⟩] (1/3) 7]
    [FrameInput.ok [detNose ⟨5, 5⟩] (2/7) 99] initState initState rfl (by decide)).1

end Liveness
